import Mathlib

/-!
Verification development for the statement-ingestion core of the
`gpay-wrapped` repository: a shallow embedding, in Lean 4, of the
cell-normalization utilities (`src/parsers/formats/excel_base.rs`), the
institution descriptors and detection engine
(`src/parsers/banks/base.rs`, `src/parsers/detector.rs`), the two
institution-specific extractors (`src/parsers/banks/icici`,
`src/parsers/banks/idfc_first`), the parser registry
(`src/parsers/registry.rs`) and the deduplication engine
(`src/models/transactions.rs` together with the uniqueness migrations),
followed by theorems settling the specification claims about them.

Modelling conventions used throughout:
* Rust `String`/`&str` become Lean `String`, with the Rust string
  primitives given structural (kernel-executable) models below; every
  string the program and the claims manipulate is ASCII.
* `rust_decimal::Decimal` becomes the pair (mantissa : ℤ, scale : ℕ),
  the exact data the crate stores.
* `chrono::NaiveDate` becomes a day number (ℤ, days since 1970-01-01),
  with the proleptic-Gregorian conversions defined below and chrono's
  representable range made explicit.
* `f64` cell payloads become ℚ (every finite double is a rational).
* The external workbook decoder (the `calamine` crate behind
  `ExcelReader::from_bytes` + `get_rows`) is a parameter of type
  `String → Except String (List (List Data))`; the repository treats it
  as a black box that either yields the sheet's rows or fails.
* Compiled regular expressions (`regex::Regex`) are modelled as boolean
  predicates; the concrete patterns of the two registered banks are
  spelled out as executable case-insensitive sequential-substring
  matchers, which is exactly what those patterns (`(?i)a.*b` …) denote.
-/

/-! ## String helpers

Rust's string primitives (`to_lowercase`, `trim`, `split`, `replace`,
`starts_with`/`ends_with`, slicing) are modelled by the structurally
recursive functions below over the character list of a `String`; all
strings under verification are ASCII. -/

/-- Rust `str::to_lowercase` (ASCII case folding). -/
def strLower (s : String) : String :=
  String.mk (s.toList.map Char.toLower)

/-- Rust `str::trim`: strip leading and trailing whitespace. -/
def strTrim (s : String) : String :=
  String.mk
    (((s.toList.dropWhile Char.isWhitespace).reverse.dropWhile
      Char.isWhitespace).reverse)

/-- Rust `str::split(c)` as a list of pieces. -/
def splitOnChar (c : Char) (s : String) : List String :=
  go s.toList []
where
  go : List Char → List Char → List String
    | [], acc => [String.mk acc.reverse]
    | x :: xs, acc =>
      if x == c then String.mk acc.reverse :: go xs [] else go xs (x :: acc)

/-- Rust `str::starts_with`. -/
def strStartsWith (s p : String) : Bool :=
  s.toList.take p.toList.length == p.toList

/-- Rust `str::ends_with`. -/
def strEndsWith (s p : String) : Bool :=
  s.toList.reverse.take p.toList.length == p.toList.reverse

/-- Drop the first `n` characters. -/
def strDrop (s : String) (n : Nat) : String :=
  String.mk (s.toList.drop n)

/-- Drop the last `n` characters. -/
def strDropRight (s : String) (n : Nat) : String :=
  String.mk (s.toList.take (s.toList.length - n))

/-- `listStartsWith l p` : `p` is a prefix of `l` (char lists). -/
def listStartsWith : List Char → List Char → Bool
  | _, [] => true
  | [], _ :: _ => false
  | a :: as, b :: bs => a == b && listStartsWith as bs

/-- Substring search on char lists: does `needle` occur inside `hay`? -/
def listHasSub (needle : List Char) : List Char → Bool
  | [] => needle.isEmpty
  | h :: t => listStartsWith (h :: t) needle || listHasSub needle t

/-- Rust `str::contains(pat)` — substring containment. -/
def strHasSub (hay needle : String) : Bool :=
  listHasSub needle.toList hay.toList

/-- Drop everything up to and including the first occurrence of
`needle`; `none` when `needle` does not occur.  Helper for the
sequential regex models below. -/
def dropAfterSub (needle : List Char) : List Char → Option (List Char)
  | [] => if needle.isEmpty then some [] else none
  | h :: t =>
    if listStartsWith (h :: t) needle then some (List.drop needle.length (h :: t))
    else dropAfterSub needle t

/-- Model of an unanchored case-insensitive regex of the shape
`(?i)p₁.*p₂.*…` (the only shape the repository uses): the literal
parts occur in order. -/
def regexSeqMatch (parts : List String) (s : String) : Bool :=
  go (parts.map (fun p => (strLower p).toList)) (strLower s).toList
where
  go : List (List Char) → List Char → Bool
    | [], _ => true
    | p :: ps, hay =>
      match dropAfterSub p hay with
      | some rest => go ps rest
      | none => false

/-- Rust `file_path.rsplit('.').next().unwrap_or("")`: the substring
after the last `'.'`, or the whole string when there is no dot. -/
def rsplitLastDot (s : String) : String :=
  (splitOnChar '.' s).getLastD ""

/-- Rust `Path::new(p).extension()`: the part of the file name after its
last dot, unless the file name has no dot or starts with its only dot. -/
def pathExtension (p : String) : Option String :=
  let fileName := (splitOnChar '/' p).getLastD ""
  match splitOnChar '.' fileName with
  | [] => none
  | [_] => none
  | "" :: [_] => none
  | parts => some (parts.getLastD "")

/-- `split_whitespace().collect::<String>()`: drop every whitespace
character. -/
def removeWhitespace (s : String) : String :=
  String.mk (s.toList.filter (fun c => !c.isWhitespace))

/-- One fuelled step list for Rust `str::replace`: replace
non-overlapping occurrences of `needle` left to right (`needle` is
never empty in the embedded code; the fuel, one unit per input
character, therefore always suffices). -/
def replaceListAux (needle repl : List Char) : Nat → List Char → List Char
  | _, [] => []
  | 0, l => l
  | fuel + 1, h :: t =>
    if listStartsWith (h :: t) needle then
      repl ++ replaceListAux needle repl fuel (List.drop (needle.length - 1) t)
    else h :: replaceListAux needle repl fuel t

/-- Rust `str::replace(needle, repl)`. -/
def strReplace (s needle repl : String) : String :=
  String.mk (replaceListAux needle.toList repl.toList s.toList.length s.toList)

/-! ## Proleptic Gregorian calendar (chrono `NaiveDate` as day numbers)

`chrono::NaiveDate` is modelled by its day number relative to
1970-01-01.  `daysFromCivil` is the standard civil-calendar conversion;
`chronoMinDay`/`chronoMaxDay` are chrono's documented representable
range (-262144-01-01 to 262143-12-31), outside of which
`checked_add_signed` returns `None`. -/

def isLeapYear (y : Int) : Bool :=
  y % 4 == 0 && (y % 100 != 0 || y % 400 == 0)

def daysInMonth (y : Int) (m : Nat) : Nat :=
  match m with
  | 1 => 31 | 3 => 31 | 5 => 31 | 7 => 31 | 8 => 31 | 10 => 31 | 12 => 31
  | 4 => 30 | 6 => 30 | 9 => 30 | 11 => 30
  | 2 => if isLeapYear y then 29 else 28
  | _ => 0

/-- Day number (days since 1970-01-01) of a civil date. -/
def daysFromCivil (y : Int) (m d : Nat) : Int :=
  let y' : Int := if m ≤ 2 then y - 1 else y
  let era : Int := Int.fdiv y' 400
  let yoe : Int := y' - era * 400
  let mp : Int := (if m > 2 then (m : Int) - 3 else (m : Int) + 9)
  let doy : Int := (153 * mp + 2) / 5 + (d : Int) - 1
  let doe : Int := yoe * 365 + yoe / 4 - yoe / 100 + doy
  era * 146097 + doe - 719468

def validDate (y : Int) (m d : Nat) : Bool :=
  1 ≤ m && m ≤ 12 && 1 ≤ d && d ≤ daysInMonth y m

/-- chrono `NaiveDate::MIN` as a day number. -/
def chronoMinDay : Int := daysFromCivil (-262144) 1 1

/-- chrono `NaiveDate::MAX` as a day number. -/
def chronoMaxDay : Int := daysFromCivil 262143 12 31

/-! ## `rust_decimal::Decimal` -/

/-- `rust_decimal::Decimal`: a scaled integer `num × 10^(-scale)`.
The crate caps `scale` at 28 and the mantissa at 96 bits; the
constructors below enforce those caps where the source relies on them. -/
structure Decimal where
  num : Int
  scale : Nat
deriving DecidableEq, Repr

namespace Decimal

/-- The rational value a `Decimal` denotes. -/
def toRat (d : Decimal) : ℚ := (d.num : ℚ) / (10 ^ d.scale : ℚ)

/-- `Decimal::is_zero`. -/
def is_zero (d : Decimal) : Bool := d.num == 0

/-- `Decimal::abs`. -/
def abs (d : Decimal) : Decimal := ⟨|d.num|, d.scale⟩

/-- `Decimal::normalize`: strip trailing zeros from the mantissa
(recursion on the scale). -/
def normalize (d : Decimal) : Decimal :=
  go d.num d.scale
where
  go (n : Int) : Nat → Decimal
    | 0 => ⟨n, 0⟩
    | k + 1 => if n % 10 == 0 then go (n / 10) k else ⟨n, k + 1⟩

/-- `Decimal`'s `Display`: mantissa digits with the decimal point
inserted `scale` places from the right (zero-padded when needed). -/
def toString (d : Decimal) : String :=
  let digits := Nat.toDigits 10 d.num.natAbs
  let digits := List.replicate (d.scale + 1 - digits.length) '0' ++ digits
  let sign := if d.num < 0 then "-" else ""
  if d.scale == 0 then
    sign ++ String.mk digits
  else
    sign ++ String.mk (digits.take (digits.length - d.scale)) ++ "." ++
      String.mk (digits.drop (digits.length - d.scale))

/-- `Decimal::from_str` (the path `ExcelAmountParser::parse_string`
uses, with `.ok()` turning the error into `none`): optional sign, then
digits with at most one decimal point; underscore separators are
permitted after a digit; anything else fails.  Overflow past 96
mantissa bits or scale 28 fails. -/
def from_str (s : String) : Option Decimal :=
  match s.toList with
  | [] => none
  | cs =>
    let (neg, rest) :=
      match cs with
      | '-' :: t => (true, t)
      | '+' :: t => (false, t)
      | t => (false, t)
    go neg rest 0 0 false false
where
  go (neg : Bool) : List Char → Nat → Nat → Bool → Bool → Option Decimal
    | [], acc, sc, _, seenDigit =>
      if seenDigit && sc ≤ 28 && acc < 2 ^ 96 then
        some ⟨if neg then -(acc : Int) else (acc : Int), sc⟩
      else none
    | c :: t, acc, sc, seenDot, seenDigit =>
      if c.isDigit then
        go neg t (acc * 10 + (c.toNat - '0'.toNat)) (if seenDot then sc + 1 else sc)
          seenDot true
      else if c == '.' then
        if seenDot then none else go neg t acc sc true seenDigit
      else if c == '_' then
        if seenDigit then go neg t acc sc seenDot seenDigit else none
      else none

/-- Model of `Decimal::from_f64_retain` on the rational value of the
double: the exact decimal representation when one with scale ≤ 28
exists and fits in 96 mantissa bits, `none` otherwise (precision
beyond what the crate retains is not modelled). -/
def from_f64_retain (q : ℚ) : Option Decimal :=
  (List.range 29).findSome? fun k =>
    let scaled : ℚ := q * (10 ^ k : ℚ)
    if scaled.den == 1 && scaled.num.natAbs < 2 ^ 96 then
      some ⟨scaled.num, k⟩
    else none

end Decimal

/-! ## `calamine::Data` cell values and `ExcelReader` cell utilities

`Data::Float` carries the rational value of the `f64`; `Data::DateTime`
carries the result of `ExcelDateTime::as_datetime().map(|dt| dt.date())`
as a day number together with its display string (the external float
and datetime formatting routines are carried as data rather than
recomputed). -/

inductive Data where
  | Empty : Data
  | String (s : String) : Data
  | Float (q : ℚ) (disp : String) : Data
  | Int (i : Int) : Data
  | Bool (b : Bool) : Data
  | DateTime (day : Option Int) (disp : String) : Data
  | DateTimeIso (s : String) : Data
  | DurationIso (s : String) : Data
  | Error (e : String) : Data
deriving DecidableEq

namespace ExcelReader

/-- `ExcelReader::cell_to_string`. -/
def cell_to_string (cell : Data) : String :=
  match cell with
  | .Empty => ""
  | .String s => s
  | .Float _ d => d
  | .Int i => toString i
  | .Bool b => if b then "true" else "false"
  | .DateTime _ d => d
  | .DateTimeIso s => s
  | .DurationIso s => s
  | .Error e => "Error: " ++ e

/-- `ExcelReader::is_cell_empty`. -/
def is_cell_empty (cell : Data) : Bool :=
  match cell with
  | .Empty => true
  | .String s => (strTrim s).isEmpty
  | _ => false

/-- `ExcelReader::is_row_empty`. -/
def is_row_empty (row : List Data) : Bool :=
  row.all is_cell_empty

end ExcelReader

/-! ## `ExcelDateParser` (date cell normalization)

The free-text path embeds the fixed format list of
`ExcelDateParser::parse_string` through a small interpreter for the
chrono directives it uses.  Per chrono's parsing behaviour: `%d`/`%m`
accept one or two digits, `%Y` accepts up to four digits, `%y` maps
00–68 to 20xx and 69–99 to 19xx, `%b`/`%B` both accept abbreviated or
full month names case-insensitively, a literal space matches any run
of whitespace, and the whole input must be consumed.  A parsed
(y, m, d) triple must denote a real calendar date. -/

inductive FmtTok where
  | day : FmtTok
  | monthNum : FmtTok
  | monthName : FmtTok
  | year4 : FmtTok
  | year2 : FmtTok
  | lit (c : Char) : FmtTok
  | space : FmtTok

def monthNames : List (String × Nat) :=
  [("january", 1), ("february", 2), ("march", 3), ("april", 4), ("may", 5),
   ("june", 6), ("july", 7), ("august", 8), ("september", 9), ("october", 10),
   ("november", 11), ("december", 12),
   ("jan", 1), ("feb", 2), ("mar", 3), ("apr", 4),
   ("jun", 6), ("jul", 7), ("aug", 8), ("sep", 9), ("oct", 10),
   ("nov", 11), ("dec", 12)]

/-- Greedy digit take, bounded by `maxLen`. -/
def takeDigits (maxLen : Nat) (cs : List Char) : Nat × Nat × List Char :=
  match maxLen, cs with
  | 0, _ => (0, 0, cs)
  | _, [] => (0, 0, [])
  | n + 1, c :: t =>
    if c.isDigit then
      let (v, len, rest) := takeDigits n t
      -- digits accumulate most-significant first; recompute below
      (v + (c.toNat - '0'.toNat) * 10 ^ len, len + 1, rest)
    else (0, 0, cs)

structure DateFields where
  y : Option Int
  m : Option Nat
  d : Option Nat

def matchMonthName (cs : List Char) : Option (Nat × List Char) :=
  monthNames.findSome? fun (name, idx) =>
    if listStartsWith (cs.map Char.toLower) name.toList then
      some (idx, cs.drop name.length)
    else none

def runFmtTok (tok : FmtTok) (f : DateFields) (cs : List Char) :
    Option (DateFields × List Char) :=
  match tok with
  | .day =>
    let (v, len, rest) := takeDigits 2 cs
    if len == 0 then none else some ({ f with d := some v }, rest)
  | .monthNum =>
    let (v, len, rest) := takeDigits 2 cs
    if len == 0 then none else some ({ f with m := some v }, rest)
  | .monthName =>
    match matchMonthName cs with
    | some (m, rest) => some ({ f with m := some m }, rest)
    | none => none
  | .year4 =>
    let (v, len, rest) := takeDigits 4 cs
    if len == 0 then none else some ({ f with y := some (v : Int) }, rest)
  | .year2 =>
    let (v, len, rest) := takeDigits 2 cs
    if len == 0 then none
    else some ({ f with y := some (if v ≤ 68 then 2000 + v else 1900 + v : Int) }, rest)
  | .lit c =>
    match cs with
    | c' :: t => if c == c' then some (f, t) else none
    | [] => none
  | .space => some (f, cs.dropWhile Char.isWhitespace)

def runFmt : List FmtTok → DateFields → List Char → Option DateFields
  | [], f, cs => if cs.isEmpty then some f else none
  | tok :: toks, f, cs =>
    match runFmtTok tok f cs with
    | some (f', rest) => runFmt toks f' rest
    | none => none

/-- Run one chrono format string against the input and produce the day
number of the parsed date. -/
def parseWithFmt (toks : List FmtTok) (s : String) : Option Int :=
  match runFmt toks ⟨none, none, none⟩ s.toList with
  | some ⟨some y, some m, some d⟩ =>
    if validDate y m d then some (daysFromCivil y m d) else none
  | _ => none

namespace ExcelDateParser

/-- The format list of `ExcelDateParser::parse_string`, in source
order. -/
def dateFormats : List (List FmtTok) :=
  [ [.day, .lit '-', .monthNum, .lit '-', .year4],   -- %d-%m-%Y
    [.day, .lit '/', .monthNum, .lit '/', .year4],   -- %d/%m/%Y
    [.day, .lit '-', .monthNum, .lit '-', .year2],   -- %d-%m-%y
    [.day, .lit '/', .monthNum, .lit '/', .year2],   -- %d/%m/%y
    [.day, .space, .monthName, .space, .year4],      -- %d %b %Y
    [.day, .lit '-', .monthName, .lit '-', .year4],  -- %d-%b-%Y
    [.day, .space, .monthName, .space, .year4],      -- %d %B %Y
    [.year4, .lit '-', .monthNum, .lit '-', .day],   -- %Y-%m-%d
    [.year4, .lit '/', .monthNum, .lit '/', .day],   -- %Y/%m/%d
    [.monthNum, .lit '-', .day, .lit '-', .year4],   -- %m-%d-%Y
    [.monthNum, .lit '/', .day, .lit '/', .year4],   -- %m/%d/%Y
    [.monthName, .space, .day, .space, .year4],      -- %b %d %Y
    [.monthName, .space, .day, .space, .year4],      -- %B %d %Y
    [.day, .lit '-', .monthName, .lit '-', .year2] ] -- %d-%b-%y

/-- `ExcelDateParser::parse_string`: trim, then try the fixed ordered
format list; first success wins, `none` on exhaustion. -/
def parse_string (text : String) : Option Int :=
  let trimmed := strTrim text
  dateFormats.findSome? (fun fmt => parseWithFmt fmt trimmed)

/-- `ExcelDateParser::from_excel_serial`: spreadsheet serial day to
date.  Serials below 1 are rejected; serials ≥ 60 are shifted down by
one day (the phantom 1900-02-29); the fractional part is truncated
(`as i64`); `checked_add_signed` fails outside chrono's range. -/
def from_excel_serial (serial : ℚ) : Option Int :=
  if serial < 1 then none
  else
    let adjusted := if 60 ≤ serial then serial - 1 else serial
    let days := daysFromCivil 1899 12 30 + ⌊adjusted⌋
    if chronoMinDay ≤ days ∧ days ≤ chronoMaxDay then some days else none

/-- `ExcelDateParser::parse_cell`. -/
def parse_cell (cell : Data) : Option Int :=
  match cell with
  | .DateTime day _ => day
  | .DateTimeIso s => parseWithFmt [.year4, .lit '-', .monthNum, .lit '-', .day] s
  | .Float q _ => from_excel_serial q
  | .Int i => from_excel_serial (i : ℚ)
  | .String s => parse_string s
  | _ => none

end ExcelDateParser

/-! ## `ExcelAmountParser` (amount cell normalization) -/

namespace ExcelAmountParser

/-- `ExcelAmountParser::clean`: trim; treat `""`, `"-"`, `"0"` as "no
amount"; strip the currency-symbol denylist, thousands separators and
whitespace; rewrite `(x)` to `-x` and the `CR`/`Dr`/`DR` suffixes. -/
def clean (text : String) : Option String :=
  let cleaned := strTrim text
  if cleaned == "" || cleaned == "-" || cleaned == "0" then none
  else
    let cleaned := ["$", "Rs.", "Rs", "INR", "USD", "EUR", "GBP"].foldl
      (fun acc sym => strReplace acc sym "") cleaned
    let cleaned := strReplace cleaned "," ""
    let cleaned := removeWhitespace cleaned
    let cleaned :=
      if strStartsWith cleaned "(" && strEndsWith cleaned ")" then
        "-" ++ strDropRight (strDrop cleaned 1) 1
      else cleaned
    let cleaned :=
      if strEndsWith cleaned "CR" then strReplace cleaned "CR" ""
      else if strEndsWith cleaned "Dr" || strEndsWith cleaned "DR" then
        "-" ++ strReplace (strReplace cleaned "Dr" "") "DR" ""
      else cleaned
    if cleaned == "" then none else some cleaned

/-- `ExcelAmountParser::parse_string`. -/
def parse_string (text : String) : Option Decimal :=
  match clean text with
  | none => none
  | some cleaned =>
    if cleaned.isEmpty then none else Decimal.from_str cleaned

/-- `ExcelAmountParser::parse_cell`. -/
def parse_cell (cell : Data) : Option Decimal :=
  match cell with
  | .Float q _ => Decimal.from_f64_retain q
  | .Int i => some ⟨i, 0⟩
  | .String s => parse_string s
  | _ => none

end ExcelAmountParser

/-! ## Canonical record model (`src/parsers/base.rs`) -/

inductive ParserError where
  | FileNotFound (s : String)
  | UnsupportedFormat (s : String)
  | ParseError (s : String)
  | IoError (s : String)
  | Other (s : String)
deriving DecidableEq

inductive TransactionType where
  | Credit : TransactionType
  | Debit : TransactionType
deriving DecidableEq

/-- `Display` for `TransactionType`. -/
def TransactionType.as_str : TransactionType → String
  | .Credit => "credit"
  | .Debit => "debit"

/-- `ParsedTransaction` (dates as day numbers). -/
structure ParsedTransaction where
  date : Int
  description : String
  amount : Decimal
  transaction_type : TransactionType
  balance : Option Decimal
  reference : Option String
  mode : Option String
deriving DecidableEq

structure ParseResult where
  transactions : List ParsedTransaction
  start_date : Option Int
  end_date : Option Int
  account_number : Option String
  bank_name : Option String
deriving DecidableEq

/-- `ParseResult::new`: min/max dates computed at construction. -/
def ParseResult.new (transactions : List ParsedTransaction) : ParseResult :=
  { transactions := transactions
    start_date := (transactions.map (·.date)).min?
    end_date := (transactions.map (·.date)).max?
    account_number := none
    bank_name := none }

structure ParserOptions where
  date_format : Option String
  skip_rows : Nat
deriving DecidableEq

def ParserOptions.default : ParserOptions := ⟨none, 0⟩

/-! ## Institution descriptors (`src/parsers/banks/base.rs`) -/

inductive FileFormat where
  | Excel : FileFormat
  | Ofx : FileFormat
  | Qfx : FileFormat
deriving DecidableEq

namespace FileFormat

/-- `FileFormat::extension`. -/
def extension : FileFormat → String
  | .Excel => "xlsx"
  | .Ofx => "ofx"
  | .Qfx => "qfx"

/-- `FileFormat::as_str`. -/
def as_str : FileFormat → String
  | .Excel => "excel"
  | .Ofx => "ofx"
  | .Qfx => "qfx"

/-- `FileFormat::from_extension`: case-insensitive; the legacy `xls`
extension also maps to Excel. -/
def from_extension (ext : String) : Option FileFormat :=
  match strLower ext with
  | "xlsx" => some .Excel
  | "xls" => some .Excel
  | "ofx" => some .Ofx
  | "qfx" => some .Qfx
  | _ => none

end FileFormat

/-- `DetectionPattern`: the four matching strategies.  The regex
variants carry the compiled regex as a predicate (`Regex::new` +
`is_match`; an uncompilable pattern is the constantly-false
predicate). -/
inductive DetectionPattern where
  | ContentContains (keywords : List String) : DetectionPattern
  | ContentRegex (matcher : String → Bool) : DetectionPattern
  | FilenamePattern (matcher : String → Bool) : DetectionPattern
  | AccountNumberRegex (matcher : String → Bool) : DetectionPattern

namespace DetectionPattern

/-- `DetectionPattern::matches_content`. -/
def matches_content (p : DetectionPattern) (content : String) : Bool :=
  match p with
  | .ContentContains keywords =>
    keywords.any (fun kw => strHasSub (strLower content) (strLower kw))
  | .ContentRegex matcher => matcher content
  | _ => false

/-- `DetectionPattern::matches_filename`. -/
def matches_filename (p : DetectionPattern) (filename : String) : Bool :=
  match p with
  | .FilenamePattern matcher => matcher filename
  | _ => false

end DetectionPattern

structure BankInfo where
  name : String
  code : String
  aliases : List String
  detection_patterns : List DetectionPattern

namespace BankInfo

/-- `BankInfo::matches_content`. -/
def matches_content (info : BankInfo) (content : String) : Bool :=
  info.detection_patterns.any (fun p => p.matches_content content)

/-- `BankInfo::matches_filename`: aliases (lower-cased substring or
case-insensitive equality) first, then filename patterns. -/
def matches_filename (info : BankInfo) (filename : String) : Bool :=
  let filenameLower := strLower filename
  info.aliases.any (fun al =>
      strHasSub filenameLower (strLower al) || filenameLower == strLower al)
  || info.detection_patterns.any (fun p => p.matches_filename filename)

end BankInfo

structure DetectionResult where
  bank : String
  confidence : ℚ
  format : FileFormat
  suggestedParser : String
  detection_reason : String
deriving DecidableEq

/-- A `FormatParser` trait object: format tag, owning bank code, the
`can_parse` predicate and the byte-buffer extraction entry point (the
content argument of `can_parse` is ignored by every implementation in
the repository, so it is not carried). -/
structure FormatParserM where
  format : FileFormat
  bank_code : String
  can_parse : String → Bool
  parse_bytes : String → ParserOptions → Except ParserError ParseResult

/-- `FormatParser::name`: `{bank}-{format}`. -/
def FormatParserM.name (p : FormatParserM) : String :=
  p.bank_code ++ "-" ++ p.format.as_str

/-- A `Bank` trait object: descriptor plus per-format parser lookup
(`can_handle` and `parsers()` are not consulted by the detection or
registry paths under verification). -/
structure BankM where
  info : BankInfo
  getParser : FileFormat → Option FormatParserM

/-- `Bank::detect_confidence` (the default trait implementation both
registered banks use): +0.4 for a filename match, +0.6 for a content
match, capped at 1.0.  The `f32` scores are modelled exactly as
rationals. -/
def BankM.detect_confidence (bank : BankM) (file_path content : String) : ℚ :=
  let confidence : ℚ := 0
  let confidence :=
    if bank.info.matches_filename file_path then confidence + 2/5 else confidence
  let confidence :=
    if bank.info.matches_content content then confidence + 3/5 else confidence
  min confidence 1

/-! ## Institution-specific extractors

The Rust `parse_rows` loops (with their `continue`/`break` row control
flow) are embedded as a per-row classification step plus a structural
recursion over the remaining rows. -/

/-- Outcome of one loop iteration of an extractor's `parse_rows`. -/
inductive RowStep where
  | stop : RowStep
  | skip : RowStep
  | emit (t : ParsedTransaction) : RowStep
deriving DecidableEq

/-- The amount/direction selection both extractors perform on the
parsed debit and credit cells (`match (withdrawal, deposit)` in the
ICICI source, `match (debit, credit)` in the IDFC First source —
the two `match` expressions are identical): a parsed non-zero debit
wins as a Debit of its absolute value; otherwise a parsed non-zero
credit wins as a Credit; otherwise there is no amount. -/
def debitCreditChoice (debitAmt creditAmt : Option Decimal) :
    Option (Decimal × TransactionType) :=
  match debitAmt, creditAmt with
  | some w, c? =>
    if !w.is_zero then some (w.abs, .Debit)
    else
      match c? with
      | some c => if !c.is_zero then some (c.abs, .Credit) else none
      | none => none
  | none, some c => if !c.is_zero then some (c.abs, .Credit) else none
  | none, none => none

namespace IciciExcelParser

/-- ICICI column indices (`IciciColumns::default`). -/
def value_date_col : Nat := 1
def cheque_number_col : Nat := 3
def remarks_col : Nat := 4
def withdrawal_col : Nat := 5
def deposit_col : Nat := 6
def balance_col : Nat := 7

/-- The legend-section termination test on a row's first cell
(`text.contains("legend") || text.contains("note:") ||
text.contains("*") && text.len() < 10`). -/
def is_stop_row (row : List Data) : Bool :=
  let text := strLower (ExcelReader.cell_to_string (row.headD .Empty))
  strHasSub text "legend" || strHasSub text "note:" ||
    (strHasSub text "*" && text.utf8ByteSize < 10)

/-- The loop body of `IciciExcelParser::parse_rows` for one row:
skip empty rows; stop at the legend section; then date, description,
amount-direction, balance and reference extraction exactly as in the
source (match arms with guards included). -/
def row_step (row : List Data) : RowStep :=
  if ExcelReader.is_row_empty row then .skip
  else
    if is_stop_row row then .stop
    else
      match (row[value_date_col]?).bind ExcelDateParser.parse_cell with
      | none => .skip
      | some date =>
        let description :=
          ((row[remarks_col]?).map
            (fun c => strTrim (ExcelReader.cell_to_string c))).getD ""
        if description.isEmpty then .skip
        else
          let withdrawal := (row[withdrawal_col]?).bind ExcelAmountParser.parse_cell
          let deposit := (row[deposit_col]?).bind ExcelAmountParser.parse_cell
          match debitCreditChoice withdrawal deposit with
          | none => .skip
          | some (amount, tx_type) =>
            let balance := (row[balance_col]?).bind ExcelAmountParser.parse_cell
            let reference :=
              match (row[cheque_number_col]?).map
                  (fun c => strTrim (ExcelReader.cell_to_string c)) with
              | some s => if !s.isEmpty && s != "0" then some s else none
              | none => none
            .emit { date := date, description := description, amount := amount,
                    transaction_type := tx_type, balance := balance,
                    reference := reference, mode := none }

/-- The row loop: `skip` keeps scanning, `stop` ends extraction. -/
def collectRows : List (List Data) → List ParsedTransaction
  | [] => []
  | row :: rest =>
    match row_step row with
    | .stop => []
    | .skip => collectRows rest
    | .emit t => t :: collectRows rest

/-- `IciciExcelParser::parse_rows`. -/
def parse_rows (rows : List (List Data)) (start_row : Nat) :
    Except ParserError ParseResult :=
  .ok { ParseResult.new (collectRows (rows.drop start_row)) with
          bank_name := some "ICICI Bank" }

def header_row : Nat := 10
def data_start_row : Nat := 11

/-- Joined lower-cased text of a row (`cell_to_string` + `join(" ")`). -/
def rowText (row : List Data) : String :=
  String.intercalate " " (row.map (fun c => strLower (ExcelReader.cell_to_string c)))

/-- `IciciExcelParser::parse_excel_content`, with the external workbook
decoding passed in as `decode`; `parse_with_custom_start` re-runs the
same pure decode, so it is folded into the header search. -/
def parse_excel_content (decode : String → Except String (List (List Data)))
    (data : String) (_options : ParserOptions) : Except ParserError ParseResult :=
  match decode data with
  | .error e => .error (.ParseError e)
  | .ok rows =>
    if rows.length ≤ data_start_row then
      .error (.ParseError "File does not have enough rows for ICICI format")
    else
      let headerText := rowText (rows.getD header_row [])
      if !strHasSub headerText "value date" && !strHasSub headerText "transaction" then
        match rows.findIdx? (fun row =>
            strHasSub (rowText row) "value date" ||
            strHasSub (rowText row) "transaction date") with
        | some i => parse_rows rows (i + 1)
        | none => .error (.ParseError "Could not find ICICI header row")
      else parse_rows rows data_start_row

/-- `IciciExcelParser::can_parse` (overridden: accepts `xls`/`xlsx`). -/
def can_parse (file_path : String) : Bool :=
  let ext := strLower (rsplitLastDot file_path)
  ext == "xls" || ext == "xlsx"

end IciciExcelParser

namespace IdfcFirstExcelParser

/-- IDFC First column indices (`IdfcFirstColumns::default`). -/
def transaction_date_col : Nat := 0
def particulars_col : Nat := 2
def cheque_no_col : Nat := 3
def debit_col : Nat := 4
def credit_col : Nat := 5
def balance_col : Nat := 6

/-- The summary-section termination test on a row's first cell. -/
def is_stop_row (row : List Data) : Bool :=
  let text := strLower (ExcelReader.cell_to_string (row.headD .Empty))
  strHasSub text "total" || strHasSub text "opening balance" ||
    strHasSub text "closing balance" || strHasSub text "summary"

/-- The non-empty-row part of the `IdfcFirstExcelParser::parse_rows`
loop body: stop at the summary section, then extract as the source
does. -/
def row_step (row : List Data) : RowStep :=
  if is_stop_row row then .stop
  else
    match (row[transaction_date_col]?).bind ExcelDateParser.parse_cell with
    | none => .skip
    | some date =>
      let description :=
        ((row[particulars_col]?).map
          (fun c => strTrim (ExcelReader.cell_to_string c))).getD ""
      if description.isEmpty then .skip
      else
        let debit := (row[debit_col]?).bind ExcelAmountParser.parse_cell
        let credit := (row[credit_col]?).bind ExcelAmountParser.parse_cell
        match debitCreditChoice debit credit with
        | none => .skip
        | some (amount, tx_type) =>
          let balance := (row[balance_col]?).bind ExcelAmountParser.parse_cell
          let reference :=
            match (row[cheque_no_col]?).map
                (fun c => strTrim (ExcelReader.cell_to_string c)) with
            | some s => if !s.isEmpty && s != "0" && s != "-" then some s else none
            | none => none
          .emit { date := date, description := description, amount := amount,
                  transaction_type := tx_type, balance := balance,
                  reference := reference, mode := none }

/-- The row loop with the consecutive-empty-row counter: three empty
rows in a row end the data region. -/
def collectRows : List (List Data) → Nat → List ParsedTransaction
  | [], _ => []
  | row :: rest, emptyCount =>
    if ExcelReader.is_row_empty row then
      if emptyCount + 1 ≥ 3 then [] else collectRows rest (emptyCount + 1)
    else
      match row_step row with
      | .stop => []
      | .skip => collectRows rest 0
      | .emit t => t :: collectRows rest 0

/-- `IdfcFirstExcelParser::parse_rows`. -/
def parse_rows (rows : List (List Data)) (start_row : Nat) :
    Except ParserError ParseResult :=
  .ok { ParseResult.new (collectRows (rows.drop start_row) 0) with
          bank_name := some "IDFC First Bank" }

def header_row : Nat := 19
def data_start_row : Nat := 20

def rowText (row : List Data) : String :=
  String.intercalate " " (row.map (fun c => strLower (ExcelReader.cell_to_string c)))

/-- `IdfcFirstExcelParser::parse_with_dynamic_header` (decode folded in
as for ICICI). -/
def parse_with_dynamic_header (rows : List (List Data)) :
    Except ParserError ParseResult :=
  match rows.findIdx? (fun row =>
      strHasSub (rowText row) "transaction date" ||
      (strHasSub (rowText row) "particulars" && strHasSub (rowText row) "debit" &&
        strHasSub (rowText row) "credit")) with
  | some i => parse_rows rows (i + 1)
  | none => .error (.ParseError "Could not find IDFC First header row")

/-- `IdfcFirstExcelParser::parse_excel_content`. -/
def parse_excel_content (decode : String → Except String (List (List Data)))
    (data : String) (_options : ParserOptions) : Except ParserError ParseResult :=
  match decode data with
  | .error e => .error (.ParseError e)
  | .ok rows =>
    if rows.length ≤ data_start_row then parse_with_dynamic_header rows
    else
      let headerText := rowText (rows.getD header_row [])
      if !strHasSub headerText "transaction date" &&
          !strHasSub headerText "particulars" then
        parse_with_dynamic_header rows
      else parse_rows rows data_start_row

/-- `IdfcFirstExcelParser::can_parse` (overridden: `xls`/`xlsx`). -/
def can_parse (file_path : String) : Bool :=
  let ext := strLower (rsplitLastDot file_path)
  ext == "xls" || ext == "xlsx"

end IdfcFirstExcelParser

/-! ## The two registered banks (`banks/icici/mod.rs`, `banks/idfc_first/mod.rs`) -/

/-- `ICICIBank::new().info`; the `(?i)icici.*statement` filename regex
is rendered as its sequential-substring meaning. -/
def iciciBankInfo : BankInfo :=
  { name := "ICICI Bank"
    code := "icici"
    aliases := ["ICICI", "ICICI Bank",
                "Industrial Credit and Investment Corporation of India"]
    detection_patterns :=
      [ .ContentContains ["ICICI Bank", "Industrial Credit and Investment Corporation",
                          "ICICI Ltd"],
        .FilenamePattern (regexSeqMatch ["icici", "statement"]) ] }

/-- The `icici-excel` format parser, given the workbook decoder. -/
def iciciExcelFormatParser (decode : String → Except String (List (List Data))) :
    FormatParserM :=
  { format := .Excel
    bank_code := "icici"
    can_parse := IciciExcelParser.can_parse
    parse_bytes := IciciExcelParser.parse_excel_content decode }

/-- `ICICIBank` as a `Bank` trait object: Excel is the only format
served. -/
def ICICIBank (decode : String → Except String (List (List Data))) : BankM :=
  { info := iciciBankInfo
    getParser := fun fmt =>
      match fmt with
      | .Excel => some (iciciExcelFormatParser decode)
      | _ => none }

/-- `IDFCFirstBank::new().info`. -/
def idfcFirstBankInfo : BankInfo :=
  { name := "IDFC First Bank"
    code := "idfc_first"
    aliases := ["IDFC FIRST", "IDFC First", "IDFC First Bank", "IDFCFirstBank",
                "IDFCFIRST"]
    detection_patterns :=
      [ .ContentContains ["IDFC FIRST", "IDFC First Bank", "IDFCFirstBank"],
        .FilenamePattern (regexSeqMatch ["idfc", "first", "statement"]),
        .FilenamePattern (regexSeqMatch ["idfcfirst", "bank", "statement"]),
        .FilenamePattern (regexSeqMatch ["idfcfirstbank"]) ] }

def idfcFirstExcelFormatParser (decode : String → Except String (List (List Data))) :
    FormatParserM :=
  { format := .Excel
    bank_code := "idfc_first"
    can_parse := IdfcFirstExcelParser.can_parse
    parse_bytes := IdfcFirstExcelParser.parse_excel_content decode }

def IDFCFirstBank (decode : String → Except String (List (List Data))) : BankM :=
  { info := idfcFirstBankInfo
    getParser := fun fmt =>
      match fmt with
      | .Excel => some (idfcFirstExcelFormatParser decode)
      | _ => none }

/-! ## Bank detector (`src/parsers/detector.rs`)

`BankDetector` holds the registered banks in registration order; the
registry registers every bank with its detector, so registry and
detector share one list here. -/

namespace BankDetector

/-- `BankDetector::detect_format`: `Path::extension`-based. -/
def detect_format (file_path : String) : Except ParserError FileFormat :=
  match pathExtension file_path with
  | none => .error (.ParseError ("No file extension found: " ++ file_path))
  | some extension =>
    match FileFormat.from_extension extension with
    | some fmt => .ok fmt
    | none => .error (.UnsupportedFormat ("Unsupported file extension: " ++ extension))

/-- The `detection_reason` strings of `detect_from_content`. -/
def detectionReason (confidence : ℚ) : String :=
  if 4/5 < confidence then "Strong match from filename and content"
  else if 1/2 < confidence then "Moderate match from filename or content"
  else "Weak match, low confidence"

/-- The scoring loop of `BankDetector::detect_from_content`: walks the
registered banks keeping `(best_match, best_confidence)`.  A bank whose
confidence beats the running best always raises `best_confidence`, but
only installs itself as `best_match` when it has a parser for the
detected format. -/
def detectLoop (file_path : String) (fmt : FileFormat) :
    List BankM → Option DetectionResult → ℚ → (content : String) →
      Option DetectionResult × ℚ
  | [], best_match, best_confidence, _ => (best_match, best_confidence)
  | bank :: rest, best_match, best_confidence, content =>
    let confidence := bank.detect_confidence file_path content
    if best_confidence < confidence then
      match bank.getParser fmt with
      | some parser =>
        detectLoop file_path fmt rest
          (some { bank := bank.info.code
                  confidence := confidence
                  format := fmt
                  suggestedParser := parser.name
                  detection_reason := detectionReason confidence })
          confidence content
      | none => detectLoop file_path fmt rest best_match confidence content
    else detectLoop file_path fmt rest best_match best_confidence content

/-- `BankDetector::detect_from_content`: run the scoring loop, then
gate the best match on the 0.3 acceptance threshold. -/
def detect_from_content (banks : List BankM) (content file_path : String)
    (format : FileFormat) : Option DetectionResult :=
  let result := detectLoop file_path format banks none 0 content
  if 3/10 ≤ result.2 then result.1 else none

/-- `BankDetector::detect`: format from the extension, then
content-based bank detection; an inconclusive detection becomes a
`ParseError`. -/
def detect (banks : List BankM) (file_path : String) (content : String) :
    Except ParserError DetectionResult :=
  match detect_format file_path with
  | .error e => .error e
  | .ok format =>
    match detect_from_content banks content file_path format with
    | some detection => .ok detection
    | none => .error (.ParseError ("Could not detect bank from file: " ++ file_path))

end BankDetector

/-! ## Parser registry (`src/parsers/registry.rs`)

The registry's bank map is modelled as the list of registered banks;
`HashMap::values()` iteration in `parse_by_extension` is modelled by
the list order (the source order is unspecified, and no claim below
depends on it). -/

structure ParserRegistry where
  banks : List BankM

namespace ParserRegistry

/-- `ParserRegistry::new` with the default banks, given the workbook
decoder. -/
def new (decode : String → Except String (List (List Data))) : ParserRegistry :=
  ⟨[ICICIBank decode, IDFCFirstBank decode]⟩

/-- `ParserRegistry::get_bank`. -/
def get_bank (reg : ParserRegistry) (code : String) : Option BankM :=
  reg.banks.find? (fun b => b.info.code == code)

/-- The bank loop of `ParserRegistry::parse_by_extension`: try every
bank's parser for the format; extractor errors mean "try the next
bank". -/
def tryBanks (file_path : String) (data : String) (options : ParserOptions)
    (format : FileFormat) : List BankM → Except ParserError ParseResult
  | [] => .error (.UnsupportedFormat ("No parser found for: " ++ file_path))
  | bank :: rest =>
    match bank.getParser format with
    | some parser =>
      if parser.can_parse file_path then
        match parser.parse_bytes data options with
        | .ok result => .ok { result with bank_name := some bank.info.name }
        | .error _ => tryBanks file_path data options format rest
      else tryBanks file_path data options format rest
    | none => tryBanks file_path data options format rest

/-- `ParserRegistry::parse_by_extension`: format from the
`rsplit('.')` extension, then the bank loop. -/
def parse_by_extension (reg : ParserRegistry) (file_path : String) (data : String)
    (options : ParserOptions) : Except ParserError ParseResult :=
  let ext := strLower (rsplitLastDot file_path)
  match FileFormat.from_extension ext with
  | none => .error (.UnsupportedFormat ("Unknown extension: " ++ ext))
  | some format => tryBanks file_path data options format reg.banks

/-- `ParserRegistry::auto_parse`: detection first; on detection success
the detected bank's parser runs and its error (if any) propagates
directly (`?`); detection failure, an unknown bank code or a missing
format parser fall back to `parse_by_extension`. -/
def auto_parse (reg : ParserRegistry) (file_path : String) (data : String)
    (options : ParserOptions) : Except ParserError ParseResult :=
  match BankDetector.detect reg.banks file_path data with
  | .ok detection =>
    match reg.get_bank detection.bank with
    | some bank =>
      match bank.getParser detection.format with
      | some parser =>
        match parser.parse_bytes data options with
        | .ok result => .ok { result with bank_name := some bank.info.name }
        | .error e => .error e
      | none => parse_by_extension reg file_path data options
    | none => parse_by_extension reg file_path data options
  | .error _ => parse_by_extension reg file_path data options

/-- `ParserRegistry::parse_with_bank`: explicit bank/format selection. -/
def parse_with_bank (reg : ParserRegistry) (bank_code : String) (format : FileFormat)
    (data : String) (options : ParserOptions) : Except ParserError ParseResult :=
  match reg.get_bank bank_code with
  | none => .error (.ParseError ("Bank not found: " ++ bank_code))
  | some bank =>
    match bank.getParser format with
    | none =>
      .error (.ParseError ("No parser for format " ++ format.as_str ++ " in bank " ++
        bank_code))
    | some parser =>
      match parser.parse_bytes data options with
      | .ok result => .ok { result with bank_name := some bank.info.name }
      | .error e => .error e

end ParserRegistry

/-! ## Deduplication engine (`src/models/transactions.rs` + migrations)

The ledger is the list of committed transaction rows, in insertion
order (`sea_orm`'s `.one()` returns the first matching row of the
scan, modelled by `List.find?`).  `insert` enforces the two unique
indexes the migrations create: `idx_transactions_hash_unique` on
`transaction_hash` and `idx_transactions_reference_unique` on
`reference_number` (both ignoring NULLs).

`std::collections::hash_map::DefaultHasher` (SipHash over the written
byte stream) is modelled as a deterministic executable hash of the
exact sequence of field encodings `generate_hash` writes; every
property proved below uses only that the hash is a function of this
stream. -/

/-- `CreateTransactionParams`. -/
structure CreateTransactionParams where
  account_id : Int
  category_id : Option Int
  statement_id : Option Int
  transaction_date : Int
  posted_date : Option Int
  description : String
  original_description : Option String
  amount : Decimal
  transaction_type : String
  merchant_name : Option String
  reference_number : Option String
  notes : Option String
deriving DecidableEq

/-- One committed row of the `transactions` table (the generated-UUID
`pid` column is not modelled; nothing under verification reads it). -/
structure StoredTransaction where
  user_id : Int
  account_id : Int
  category_id : Option Int
  statement_id : Option Int
  transaction_date : Int
  posted_date : Option Int
  description : String
  original_description : Option String
  amount : Decimal
  transaction_type : String
  status : String
  merchant_name : Option String
  reference_number : Option String
  notes : Option String
  is_recurring : Bool
  is_excluded : Bool
  transaction_hash : Option String
deriving DecidableEq

abbrev Ledger := List StoredTransaction

/-- One value written into the hasher by `generate_hash`. -/
inductive HashToken where
  | int (i : Int) : HashToken
  | date (d : Int) : HashToken
  | str (s : String) : HashToken
deriving DecidableEq

/-- Injective encoding of a token into a number stream. -/
def HashToken.encode : HashToken → List Nat
  | .int i => [1, i.natAbs * 2 + (if i < 0 then 1 else 0)]
  | .date d => [2, d.natAbs * 2 + (if d < 0 then 1 else 0)]
  | .str s => [3, s.length] ++ s.toList.map Char.toNat

/-- Deterministic 64-bit stream hash (stand-in for `DefaultHasher`). -/
def streamHash (tokens : List HashToken) : Nat :=
  (tokens.flatMap HashToken.encode).foldl
    (fun h x => (h * 1099511628211 + x + 1) % 2 ^ 64) 14695981039346656037 % 2 ^ 64

/-- Lower-case hex rendering (`format!("{:x}", …)`). -/
def hexString (n : Nat) : String :=
  (Nat.toDigits 16 n).asString

namespace Model

/-- The exact sequence of values `Model::generate_hash` feeds the
hasher: user id, account id, date, `amount.abs().normalize()`
rendered to text, trimmed lower-cased description, transaction type,
and — only when present — the trimmed lower-cased reference. -/
def hashStream (user_id account_id : Int) (transaction_date : Int)
    (amount : Decimal) (description transaction_type : String)
    (reference_number : Option String) : List HashToken :=
  [.int user_id, .int account_id, .date transaction_date,
   .str (amount.abs.normalize.toString),
   .str (strLower (strTrim description)),
   .str transaction_type] ++
  (match reference_number with
   | some ref_no => [.str (strLower (strTrim ref_no))]
   | none => [])

/-- `Model::generate_hash`. -/
def generate_hash (user_id account_id : Int) (transaction_date : Int)
    (amount : Decimal) (description transaction_type : String)
    (reference_number : Option String) : String :=
  hexString (streamHash (hashStream user_id account_id transaction_date amount
    description transaction_type reference_number))

/-- `Model::find_duplicate_by_reference`: normalize the probe (trim,
lowercase) and scan every stored row — all users and accounts — for a
`reference_number` column equal to the normalized probe.  (The stored
column itself is compared as stored.) -/
def find_duplicate_by_reference (db : Ledger) (reference_number : String) :
    Option StoredTransaction :=
  if (strTrim reference_number).isEmpty then none
  else
    let normalized_ref := strLower (strTrim reference_number)
    db.find? (fun t => t.reference_number == some normalized_ref)

/-- `ActiveModel::insert` under the migrations' unique indexes: a
non-NULL `transaction_hash` or `reference_number` equal to an existing
row's aborts with a database error; otherwise the row is appended. -/
def insert (db : Ledger) (t : StoredTransaction) : Except String Ledger :=
  if (match t.transaction_hash with
      | some h => db.any (fun u => u.transaction_hash == some h)
      | none => false) then
    .error "duplicate key value violates unique constraint idx_transactions_hash_unique"
  else if (match t.reference_number with
      | some r => db.any (fun u => u.reference_number == some r)
      | none => false) then
    .error "duplicate key value violates unique constraint idx_transactions_reference_unique"
  else .ok (db ++ [t])

/-- `Model::create_with_deduplication`: reference check first, then
per-user hash check, then insert with the fingerprint hash attached.
Returns the created row (`some`) or `none` for a skipped duplicate,
with the resulting ledger. -/
def create_with_deduplication (db : Ledger) (user_id : Int)
    (params : CreateTransactionParams) :
    Except String (Option StoredTransaction × Ledger) :=
  let refDuplicate :=
    match params.reference_number with
    | some ref_no =>
      if !(strTrim ref_no).isEmpty then (find_duplicate_by_reference db ref_no).isSome
      else false
    | none => false
  if refDuplicate then .ok (none, db)
  else
    let hash := generate_hash user_id params.account_id params.transaction_date
      params.amount params.description params.transaction_type
      params.reference_number
    match db.find? (fun t => t.user_id == user_id && t.transaction_hash == some hash) with
    | some _ => .ok (none, db)
    | none =>
      let t : StoredTransaction :=
        { user_id := user_id
          account_id := params.account_id
          category_id := params.category_id
          statement_id := params.statement_id
          transaction_date := params.transaction_date
          posted_date := params.posted_date
          description := params.description
          original_description := params.original_description
          amount := params.amount
          transaction_type := params.transaction_type
          status := "posted"
          merchant_name := params.merchant_name
          reference_number := params.reference_number
          notes := params.notes
          is_recurring := false
          is_excluded := false
          transaction_hash := some hash }
      match insert db t with
      | .error e => .error e
      | .ok db' => .ok (some t, db')

/-- `Model::bulk_import_with_deduplication`: per-transaction
deduplicated commit accumulating (created, skipped); a database error
(`?` on `create_with_deduplication`) aborts the batch. -/
def bulk_import_with_deduplication (db : Ledger) (user_id : Int) :
    List CreateTransactionParams → Except String (Nat × Nat × Ledger) :=
  go db 0 0
where
  go (db : Ledger) (created_count skipped_count : Nat) :
      List CreateTransactionParams → Except String (Nat × Nat × Ledger)
    | [] => .ok (created_count, skipped_count, db)
    | params :: rest =>
      match create_with_deduplication db user_id params with
      | .error e => .error e
      | .ok (some _, db') => go db' (created_count + 1) skipped_count rest
      | .ok (none, db') => go db' created_count (skipped_count + 1) rest

end Model

/-! ## Concrete instances used by the claim theorems -/

/-- Sheet contents in the IDFC First layout (header row, one debit
data row with a native datetime cell for 2024-12-31) used to
instantiate the registry claims. -/
def idfcShapedRows : List (List Data) :=
  [ [.String "Particulars", .String "Debit", .String "Credit"],
    [.DateTime (some 20088) "2024-12-31 00:00:00", .Empty,
     .String "UPI payment", .Empty, .String "100", .Empty, .Empty] ]

/-- A workbook decoder that yields `idfcShapedRows` for any byte
buffer (standing for a real workbook holding those cells). -/
def idfcShapedDecode : String → Except String (List (List Data)) :=
  fun _ => .ok idfcShapedRows

/-- The default registry over that decoder. -/
def idfcShapedRegistry : ParserRegistry := ParserRegistry.new idfcShapedDecode

/-- The detection result the detector produces for the probe
`("statement.xls", "ICICI Bank")` against the default registry. -/
def iciciShapedDetection : DetectionResult :=
  { bank := "icici", confidence := 3/5, format := .Excel
    suggestedParser := "icici-excel"
    detection_reason := "Moderate match from filename or content" }

/-- A concrete ICICI-layout data row (serial, value date, transaction
date, cheque number, remarks, withdrawal, deposit, balance) with a
non-zero withdrawal cell. -/
def iciciWitnessRow : List Data :=
  [.Empty, .DateTime (some 20088) "2024-12-31 00:00:00", .Empty, .String "123",
   .String "UPI payment", .String "100", .Empty, .Empty]

/-- A workbook decoder standing for bytes `calamine` cannot open. -/
def failingDecode : String → Except String (List (List Data)) :=
  fun _ => .error "Failed to open Excel file: invalid workbook"

/-- The default registry over the failing decoder. -/
def failingRegistry : ParserRegistry := ParserRegistry.new failingDecode

/-- A registered institution whose content pattern matches the probe
content but which exposes no format parser at all (the detector must
skip it during scoring). -/
def contentOnlyNoParserBank : BankM :=
  { info := { name := "Alpha Bank", code := "alpha", aliases := []
              detection_patterns := [.ContentContains ["alpha"]] }
    getParser := fun _ => none }

/-- An Excel parser trait object whose extraction always succeeds with
an empty result (the detector never invokes it). -/
def betaExcelFormatParser : FormatParserM :=
  { format := .Excel
    bank_code := "beta"
    can_parse := fun _ => true
    parse_bytes := fun _ _ => .ok (ParseResult.new []) }

/-- A registered institution with an Excel parser whose alias matches
the probe filename (confidence 0.4). -/
def filenameOnlyBank : BankM :=
  { info := { name := "Beta Bank", code := "beta", aliases := ["beta"]
              detection_patterns := [] }
    getParser := fun fmt =>
      match fmt with
      | .Excel => some betaExcelFormatParser
      | _ => none }

/-- The detection result `detect_from_content` produces for
`filenameOnlyBank` alone on the probe inputs. -/
def betaDetectionResult : DetectionResult :=
  { bank := "beta", confidence := 2/5, format := .Excel
    suggestedParser := "beta-excel"
    detection_reason := "Weak match, low confidence" }

/-- Modelled from the spec: the serial-date formula the claim states —
"adds the serial as days to the epoch 1899-12-30 with no shift for
serials < 60 and a shift of exactly −1 day for serials ≥ 60 relative
to naive epoch addition" (fractional days truncate, as `as i64`
does). -/
def specSerialFormula (serial : ℚ) : Int :=
  daysFromCivil 1899 12 30 + ⌊if 60 ≤ serial then serial - 1 else serial⌋

/-- "No pre-existing duplicates of the candidate" for the idempotence
claim: no stored row carries the candidate's fingerprint hash, and —
when the candidate has a reference — no stored row carries that
reference either raw or normalized. -/
def Model.freshFor (db : Ledger) (user_id : Int)
    (params : CreateTransactionParams) : Prop :=
  (∀ t ∈ db, t.transaction_hash ≠
    some (Model.generate_hash user_id params.account_id params.transaction_date
      params.amount params.description params.transaction_type
      params.reference_number)) ∧
  (∀ r, params.reference_number = some r →
    ∀ t ∈ db, t.reference_number ≠ some r ∧
      t.reference_number ≠ some (strLower (strTrim r)))

/-- First committed transaction of the reference-priority scenario:
reference `"UPI123"`. -/
def refScenarioFirst : CreateTransactionParams :=
  { account_id := 1, category_id := none, statement_id := none
    transaction_date := 20088, posted_date := none
    description := "salary credit", original_description := none
    amount := ⟨10000, 2⟩, transaction_type := "credit"
    merchant_name := none, reference_number := some "UPI123", notes := none }

/-- Second candidate: same reference token `"UPI123"`, different
description and amount (so a different fingerprint hash). -/
def refScenarioSameRef : CreateTransactionParams :=
  { refScenarioFirst with description := "refund", amount := ⟨5000, 2⟩ }

/-- Second candidate variant: reference `"upi123"` — equal to the
first's after normalization, different raw. -/
def refScenarioLowerRef : CreateTransactionParams :=
  { refScenarioSameRef with reference_number := some "upi123" }

/-- A candidate with an already-normalized reference, used to witness
the idempotence claim. -/
def idempotenceCandidate : CreateTransactionParams :=
  { refScenarioFirst with reference_number := some "upi999" }

/-! ## Claim theorems -/

/-- **C10** — `FileFormat` round-trips through its canonical extension:
`from_extension (f.extension) = some f` for every format;
`from_extension` is case-insensitive (it depends only on the
lower-cased extension), additionally maps the legacy `"xls"` to Excel,
and returns `none` for every other extension. -/
theorem claim_C10 :
    (∀ f : FileFormat, FileFormat.from_extension f.extension = some f) ∧
    FileFormat.from_extension "xls" = some .Excel ∧
    (∀ s t : String, strLower s = strLower t →
      FileFormat.from_extension s = FileFormat.from_extension t) ∧
    (∀ s : String, strLower s ≠ "xlsx" → strLower s ≠ "xls" → strLower s ≠ "ofx" →
      strLower s ≠ "qfx" → FileFormat.from_extension s = none) := by
  refine ⟨?_, by decide, ?_, ?_⟩
  · intro f; cases f <;> decide
  · intro s t h
    unfold FileFormat.from_extension
    rw [h]
  · intro s h1 h2 h3 h4
    unfold FileFormat.from_extension
    split <;> simp_all

/-- Witness for C10 at concrete extensions. -/
theorem claim_C10_witness :
    FileFormat.from_extension "XLS" = FileFormat.from_extension "xls" ∧
    FileFormat.from_extension "txt" = none :=
  ⟨claim_C10.2.2.1 "XLS" "xls" (by decide),
   claim_C10.2.2.2 "txt" (by decide) (by decide) (by decide) (by decide)⟩

/-- **C8** — `Bank::detect_confidence` scores 0.4 for a filename-only
match, 0.6 for a content-only match, their sum capped at 1.0 for both;
the score always lies in [0, 1]; and adding a matching filename to a
content-only match strictly increases the score to 1.0. -/
theorem claim_C8 (bank : BankM) (filename content otherName : String) :
    (bank.info.matches_filename filename = true →
      bank.info.matches_content content = false →
      bank.detect_confidence filename content = 2/5) ∧
    (bank.info.matches_filename filename = false →
      bank.info.matches_content content = true →
      bank.detect_confidence filename content = 3/5) ∧
    (bank.info.matches_filename filename = true →
      bank.info.matches_content content = true →
      bank.detect_confidence filename content = min (2/5 + 3/5) 1) ∧
    0 ≤ bank.detect_confidence filename content ∧
    bank.detect_confidence filename content ≤ 1 ∧
    (bank.info.matches_content content = true →
      bank.info.matches_filename filename = false →
      bank.info.matches_filename otherName = true →
      bank.detect_confidence filename content <
        bank.detect_confidence otherName content ∧
      bank.detect_confidence otherName content = 1) := by
  unfold BankM.detect_confidence
  by_cases hf : bank.info.matches_filename filename <;>
    by_cases hc : bank.info.matches_content content <;>
      by_cases ho : bank.info.matches_filename otherName <;>
        simp [hf, hc, ho] <;> norm_num

/-- Witness for C8: ICICI's descriptor against a filename containing
the `icici` alias and empty content scores 0.4. -/
theorem claim_C8_witness :
    (ICICIBank failingDecode).detect_confidence "icici_statement.xls" "" = 2/5 :=
  (claim_C8 (ICICIBank failingDecode) "icici_statement.xls" "" "").1
    (by decide) (by decide)

/-- **C9** — the fingerprint hash is a function of the normalized
field tuple only: with user, account, date and direction equal,
descriptions equal after trim+lowercase, amounts equal in absolute
normalized value, and references both absent or equal after
trim+lowercase, `generate_hash` agrees. -/
theorem claim_C9 (user_id account_id transaction_date : Int)
    (transaction_type : String) (m1 m2 : Decimal) (d1 d2 : String)
    (r1 r2 : Option String)
    (hm : m1.abs.normalize = m2.abs.normalize)
    (hd : strLower (strTrim d1) = strLower (strTrim d2))
    (hr : (r1 = none ∧ r2 = none) ∨
      ∃ s1 s2, r1 = some s1 ∧ r2 = some s2 ∧ strLower (strTrim s1) = strLower (strTrim s2)) :
    Model.generate_hash user_id account_id transaction_date m1 d1
      transaction_type r1 =
    Model.generate_hash user_id account_id transaction_date m2 d2
      transaction_type r2 := by
  unfold Model.generate_hash Model.hashStream
  rw [hm, hd]
  rcases hr with ⟨h1, h2⟩ | ⟨s1, s2, h1, h2, h3⟩ <;> subst h1 <;> subst h2
  · rfl
  · simp only [h3]

/-- Witness for C9: `-50.00` vs `50`, differently-cased descriptions
and references. -/
theorem claim_C9_witness :
    Model.generate_hash 1 2 20088 ⟨-5000, 2⟩ " Salary " "credit" (some "ABC ") =
    Model.generate_hash 1 2 20088 ⟨50, 0⟩ "salary" "credit" (some " abc") :=
  claim_C9 1 2 20088 "credit" ⟨-5000, 2⟩ ⟨50, 0⟩ " Salary " "salary"
    (some "ABC ") (some " abc") (by decide) (by decide)
    (.inr ⟨"ABC ", " abc", rfl, rfl, by decide⟩)

/-- **C6** — amount normalization: the claimed equations hold, the
trimmed literals `""`, `"-"`, `"0"` yield absent rather than zero, and
the function totalizes to a decimal or absent on every input. -/
theorem claim_C6 :
    ExcelAmountParser.parse_string "1,234.56" = some ⟨123456, 2⟩ ∧
    ExcelAmountParser.parse_string "Rs.100.00" = some ⟨10000, 2⟩ ∧
    ExcelAmountParser.parse_string "(50.00)" = some ⟨-5000, 2⟩ ∧
    (∀ s : String, (strTrim s = "" ∨ strTrim s = "-" ∨ strTrim s = "0") →
      ExcelAmountParser.parse_string s = none) ∧
    (∀ s : String, ExcelAmountParser.parse_string s = none ∨
      ∃ d, ExcelAmountParser.parse_string s = some d) := by
  refine ⟨by decide, by decide, by decide, ?_, ?_⟩
  · intro s hs
    unfold ExcelAmountParser.parse_string ExcelAmountParser.clean
    rcases hs with h | h | h <;> simp [h]
  · intro s
    cases h : ExcelAmountParser.parse_string s with
    | none => exact .inl rfl
    | some d => exact .inr ⟨d, rfl⟩

/-- Witness for C6's absent-literal clause at `"  0  "`. -/
theorem claim_C6_witness : ExcelAmountParser.parse_string "  0  " = none :=
  claim_C6.2.2.2.1 "  0  " (.inr (.inr (by decide)))

/-- **C7 (counterexample)** — the claim's rule "for every serial value
it adds the serial as days to the epoch" fails at serial 0: the code
rejects serials below 1 and returns absent, while the claimed formula
yields the epoch 1899-12-30 itself. -/
theorem claim_C7_counterexample :
    ExcelDateParser.from_excel_serial 0 = none ∧
    specSerialFormula 0 = daysFromCivil 1899 12 30 := by
  constructor
  · unfold ExcelDateParser.from_excel_serial
    rw [if_pos (by norm_num)]
  · unfold specSerialFormula
    rw [if_neg (by norm_num : ¬ (60:ℚ) ≤ 0)]
    norm_num

/-- **C7 (amended)** — for every serial ≥ 1, `from_excel_serial` adds
the truncated serial to the epoch 1899-12-30, shifted by −1 day
exactly when the serial is ≥ 60, producing that date when it lies in
chrono's representable range and absent when `checked_add_signed`
overflows it; and serial 45658 maps to 2024-12-31. -/
theorem claim_C7_amended (serial : ℚ) (h1 : 1 ≤ serial) :
    ExcelDateParser.from_excel_serial serial =
      (if chronoMinDay ≤ specSerialFormula serial ∧
          specSerialFormula serial ≤ chronoMaxDay
       then some (specSerialFormula serial) else none) ∧
    ExcelDateParser.from_excel_serial 45658 = some (daysFromCivil 2024 12 31) := by
  have hepoch : daysFromCivil 1899 12 30 = -25569 := by decide
  have hmin : chronoMinDay = -96465658 := by decide
  have hmax : chronoMaxDay = 95026601 := by decide
  constructor
  · simp only [ExcelDateParser.from_excel_serial, specSerialFormula]
    rw [if_neg (not_lt.mpr h1)]
  · simp only [ExcelDateParser.from_excel_serial]
    rw [if_neg (by norm_num : ¬ (45658:ℚ) < 1),
      if_pos (by norm_num : (60:ℚ) ≤ 45658)]
    have hf : ⌊(45658:ℚ) - 1⌋ = 45657 := by norm_num
    rw [hf]
    rw [if_pos (by rw [hmin, hmax, hepoch]; omega)]
    rw [hepoch]
    decide

/-- Witness for C7 at serial 45658 (in range, hence the shifted-epoch
value). -/
theorem claim_C7_witness :
    ExcelDateParser.from_excel_serial 45658 =
      (if chronoMinDay ≤ specSerialFormula 45658 ∧
          specSerialFormula 45658 ≤ chronoMaxDay
       then some (specSerialFormula 45658) else none) ∧
    ExcelDateParser.from_excel_serial 45658 = some (daysFromCivil 2024 12 31) :=
  ⟨(claim_C7_amended 45658 (by norm_num)).1,
   (claim_C7_amended 45658 (by norm_num)).2⟩

/-- Case evaluation of `detect_confidence` (filename ±0.4, content
±0.6, cap at 1). -/
theorem detect_confidence_cases (bank : BankM) (f c : String) :
    bank.detect_confidence f c =
      (if bank.info.matches_filename f then
        (if bank.info.matches_content c then 1 else 2/5)
      else (if bank.info.matches_content c then 3/5 else 0)) := by
  unfold BankM.detect_confidence
  by_cases hf : bank.info.matches_filename f <;>
    by_cases hc : bank.info.matches_content c <;> simp [hf, hc] <;> norm_num

/-- Any institution the scoring loop installs as best match lies in
the scanned list and exposes a parser for the detected format. -/
theorem detectLoop_some_mem (file_path : String) (fmt : FileFormat)
    (content : String) (banks : List BankM) :
    ∀ (bm : Option DetectionResult) (bc : ℚ) (r : DetectionResult),
      (BankDetector.detectLoop file_path fmt banks bm bc content).1 = some r →
      bm = some r ∨ ∃ bank ∈ banks, r.bank = bank.info.code ∧
        (bank.getParser fmt).isSome = true := by
  induction banks with
  | nil =>
    intro bm bc r h
    exact .inl h
  | cons b rest ih =>
    intro bm bc r h
    simp only [BankDetector.detectLoop] at h
    by_cases hcmp : bc < b.detect_confidence file_path content
    · rw [if_pos hcmp] at h
      cases hp : b.getParser fmt with
      | some parser =>
        simp only [hp] at h
        rcases ih _ _ _ h with h1 | ⟨bank, hmem, hcode, hps⟩
        · injection h1 with h1
          subst h1
          exact .inr ⟨b, List.mem_cons_self _ _, rfl, by simp [hp]⟩
        · exact .inr ⟨bank, List.mem_cons_of_mem _ hmem, hcode, hps⟩
      | none =>
        simp only [hp] at h
        rcases ih _ _ _ h with h1 | ⟨bank, hmem, hcode, hps⟩
        · exact .inl h1
        · exact .inr ⟨bank, List.mem_cons_of_mem _ hmem, hcode, hps⟩
    · rw [if_neg hcmp] at h
      rcases ih _ _ _ h with h1 | ⟨bank, hmem, hcode, hps⟩
      · exact .inl h1
      · exact .inr ⟨bank, List.mem_cons_of_mem _ hmem, hcode, hps⟩

/-- **C2 (amended)** — an institution with no Format Parser for the
detected format is indeed never returned by content-based detection:
any returned institution is registered and exposes a parser for that
format.  (The skipped institution's confidence, however, still raises
the running best score — see the counterexample.) -/
theorem claim_C2_amended (banks : List BankM) (content file_path : String)
    (fmt : FileFormat) (r : DetectionResult)
    (h : BankDetector.detect_from_content banks content file_path fmt = some r) :
    ∃ bank ∈ banks, r.bank = bank.info.code ∧
      (bank.getParser fmt).isSome = true := by
  unfold BankDetector.detect_from_content at h
  by_cases ht : (3:ℚ)/10 ≤ (BankDetector.detectLoop file_path fmt banks none 0 content).2
  · rw [if_pos ht] at h
    rcases detectLoop_some_mem file_path fmt content banks none 0 r h with h1 | h2
    · cases h1
    · exact h2
  · rw [if_neg ht] at h
    cases h

/-- **C2 (counterexample)** — the skipped institution's confidence
does influence the outcome: with `contentOnlyNoParserBank` (content
score 0.6, no parser) registered ahead of `filenameOnlyBank`
(filename score 0.4, Excel parser), detection returns nothing, while
without the parserless institution the same probe selects
`filenameOnlyBank`. -/
theorem claim_C2_counterexample :
    BankDetector.detect_from_content [contentOnlyNoParserBank, filenameOnlyBank]
      "alpha" "beta.xlsx" .Excel = none ∧
    BankDetector.detect_from_content [filenameOnlyBank] "alpha" "beta.xlsx"
      .Excel = some betaDetectionResult := by
  have hA : contentOnlyNoParserBank.detect_confidence "beta.xlsx" "alpha" = 3/5 := by
    rw [detect_confidence_cases]
    rw [show contentOnlyNoParserBank.info.matches_filename "beta.xlsx" = false
        from by decide,
      show contentOnlyNoParserBank.info.matches_content "alpha" = true from by decide]
    simp
  have hB : filenameOnlyBank.detect_confidence "beta.xlsx" "alpha" = 2/5 := by
    rw [detect_confidence_cases]
    rw [show filenameOnlyBank.info.matches_filename "beta.xlsx" = true from by decide,
      show filenameOnlyBank.info.matches_content "alpha" = false from by decide]
    simp
  have hpA : contentOnlyNoParserBank.getParser .Excel = none := rfl
  have hpB : filenameOnlyBank.getParser .Excel = some betaExcelFormatParser := rfl
  have hreason : BankDetector.detectionReason (2/5) = "Weak match, low confidence" := by
    unfold BankDetector.detectionReason
    rw [if_neg (by norm_num : ¬ (4:ℚ)/5 < 2/5), if_neg (by norm_num : ¬ (1:ℚ)/2 < 2/5)]
  constructor
  · unfold BankDetector.detect_from_content
    simp only [BankDetector.detectLoop, hA, hB, hpA, hpB]
    rw [if_pos (show (0:ℚ) < 3/5 by norm_num),
      if_neg (show ¬ (3:ℚ)/5 < 2/5 by norm_num),
      if_pos (show (3:ℚ)/10 ≤ 3/5 by norm_num)]
  · unfold BankDetector.detect_from_content
    simp only [BankDetector.detectLoop, hB, hpB]
    rw [if_pos (show (0:ℚ) < 2/5 by norm_num),
      if_pos (show (3:ℚ)/10 ≤ 2/5 by norm_num)]
    rw [hreason]
    rfl

/-- Witness for C2's amended theorem: the institution detection does
return carries a parser for the format. -/
theorem claim_C2_witness :
    ∃ bank ∈ [filenameOnlyBank], betaDetectionResult.bank = bank.info.code ∧
      (bank.getParser .Excel).isSome = true := by
  refine claim_C2_amended [filenameOnlyBank] "alpha" "beta.xlsx" .Excel
    betaDetectionResult ?_
  have hB : filenameOnlyBank.detect_confidence "beta.xlsx" "alpha" = 2/5 := by
    rw [detect_confidence_cases]
    rw [show filenameOnlyBank.info.matches_filename "beta.xlsx" = true from by decide,
      show filenameOnlyBank.info.matches_content "alpha" = false from by decide]
    simp
  have hpB : filenameOnlyBank.getParser .Excel = some betaExcelFormatParser := rfl
  have hreason : BankDetector.detectionReason (2/5) = "Weak match, low confidence" := by
    unfold BankDetector.detectionReason
    rw [if_neg (by norm_num : ¬ (4:ℚ)/5 < 2/5), if_neg (by norm_num : ¬ (1:ℚ)/2 < 2/5)]
  unfold BankDetector.detect_from_content
  simp only [BankDetector.detectLoop, hB, hpB]
  rw [if_pos (show (0:ℚ) < 2/5 by norm_num),
    if_pos (show (3:ℚ)/10 ≤ 2/5 by norm_num)]
  rw [hreason]
  rfl

/-- The extension-fallback bank loop succeeds whenever some registered
bank's parser for the format accepts the file and parses the bytes. -/
theorem tryBanks_isOk (file_path data : String) (options : ParserOptions)
    (fmt : FileFormat) (banks : List BankM)
    (hex : ∃ bank ∈ banks, ∃ parser, bank.getParser fmt = some parser ∧
      parser.can_parse file_path = true ∧
      (parser.parse_bytes data options).isOk = true) :
    (ParserRegistry.tryBanks file_path data options fmt banks).isOk = true := by
  induction banks with
  | nil =>
    rcases hex with ⟨bank, hmem, _⟩
    cases hmem
  | cons b rest ih =>
    rcases hex with ⟨bank, hmem, parser, hp, hcp, hok⟩
    rcases List.mem_cons.mp hmem with rfl | hmem'
    · simp only [ParserRegistry.tryBanks, hp, hcp, if_true]
      cases hres : parser.parse_bytes data options with
      | ok r => rfl
      | error e =>
        rw [hres] at hok
        simp [Except.isOk, Except.toBool] at hok
    · simp only [ParserRegistry.tryBanks]
      cases hbp : b.getParser fmt with
      | none => exact ih ⟨bank, hmem', parser, hp, hcp, hok⟩
      | some p' =>
        by_cases hcp' : p'.can_parse file_path = true
        · simp only [hcp', if_true]
          cases hres : p'.parse_bytes data options with
          | ok r => rfl
          | error e => exact ih ⟨bank, hmem', parser, hp, hcp, hok⟩
        · simp only [if_neg hcp']
          exact ih ⟨bank, hmem', parser, hp, hcp, hok⟩

/-- **C1 (amended)** — `auto_parse`'s failure semantics: (a) on
detection failure it returns exactly the extension-based fallback's
result; (b) but when detection succeeds and the detected bank's format
parser fails on the bytes, that parse error propagates directly, with
no fallback attempt; (c) the fallback succeeds whenever any registered
bank's parser for the extension-derived format accepts and parses the
file; (d) hence an inconclusive detection alone never produces an
error when some extension-based fallback succeeds. -/
theorem claim_C1 (reg : ParserRegistry) (file_path data : String)
    (options : ParserOptions) :
    (∀ e, BankDetector.detect reg.banks file_path data = .error e →
      reg.auto_parse file_path data options =
        reg.parse_by_extension file_path data options) ∧
    (∀ detection bank parser e,
      BankDetector.detect reg.banks file_path data = .ok detection →
      reg.get_bank detection.bank = some bank →
      bank.getParser detection.format = some parser →
      parser.parse_bytes data options = .error e →
      reg.auto_parse file_path data options = .error e) ∧
    (∀ fmt, FileFormat.from_extension (strLower (rsplitLastDot file_path)) =
        some fmt →
      (∃ bank ∈ reg.banks, ∃ parser, bank.getParser fmt = some parser ∧
        parser.can_parse file_path = true ∧
        (parser.parse_bytes data options).isOk = true) →
      (reg.parse_by_extension file_path data options).isOk = true) ∧
    (∀ e fmt, BankDetector.detect reg.banks file_path data = .error e →
      FileFormat.from_extension (strLower (rsplitLastDot file_path)) = some fmt →
      (∃ bank ∈ reg.banks, ∃ parser, bank.getParser fmt = some parser ∧
        parser.can_parse file_path = true ∧
        (parser.parse_bytes data options).isOk = true) →
      (reg.auto_parse file_path data options).isOk = true) := by
  have hfall : ∀ fmt, FileFormat.from_extension (strLower (rsplitLastDot file_path)) =
      some fmt →
      (∃ bank ∈ reg.banks, ∃ parser, bank.getParser fmt = some parser ∧
        parser.can_parse file_path = true ∧
        (parser.parse_bytes data options).isOk = true) →
      (reg.parse_by_extension file_path data options).isOk = true := by
    intro fmt hfmt hex
    unfold ParserRegistry.parse_by_extension
    simp only [hfmt]
    exact tryBanks_isOk file_path data options fmt reg.banks hex
  refine ⟨?_, ?_, hfall, ?_⟩
  · intro e h
    simp only [ParserRegistry.auto_parse, h]
  · intro detection bank parser e h1 h2 h3 h4
    simp only [ParserRegistry.auto_parse, h1, h2, h3, h4]
  · intro e fmt h1 hfmt hex
    have ha : reg.auto_parse file_path data options =
        reg.parse_by_extension file_path data options := by
      simp only [ParserRegistry.auto_parse, h1]
    rw [ha]
    exact hfall fmt hfmt hex

/-- **C1 (counterexample)** — with the default registry over a sheet
in the IDFC First layout and content identifying ICICI: detection
succeeds (ICICI, 0.6), ICICI's extractor then rejects the sheet and
`auto_parse` returns that error — even though detection did not fail
and the extension fallback (which tries IDFC First too) succeeds on
the very same input. -/
theorem claim_C1_counterexample :
    BankDetector.detect idfcShapedRegistry.banks "statement.xls" "ICICI Bank" =
      .ok iciciShapedDetection ∧
    ParserRegistry.auto_parse idfcShapedRegistry "statement.xls" "ICICI Bank"
      ParserOptions.default =
      .error (.ParseError "File does not have enough rows for ICICI format") ∧
    (ParserRegistry.parse_by_extension idfcShapedRegistry "statement.xls"
      "ICICI Bank" ParserOptions.default).isOk = true := by
  have hic : (ICICIBank idfcShapedDecode).detect_confidence "statement.xls"
      "ICICI Bank" = 3/5 := by
    rw [detect_confidence_cases]
    rw [show (ICICIBank idfcShapedDecode).info.matches_filename "statement.xls" =
        false from by decide,
      show (ICICIBank idfcShapedDecode).info.matches_content "ICICI Bank" =
        true from by decide]
    simp
  have hid : (IDFCFirstBank idfcShapedDecode).detect_confidence "statement.xls"
      "ICICI Bank" = 0 := by
    rw [detect_confidence_cases]
    rw [show (IDFCFirstBank idfcShapedDecode).info.matches_filename "statement.xls" =
        false from by decide,
      show (IDFCFirstBank idfcShapedDecode).info.matches_content "ICICI Bank" =
        false from by decide]
    simp
  have hdet : BankDetector.detect idfcShapedRegistry.banks "statement.xls"
      "ICICI Bank" = .ok iciciShapedDetection := by
    unfold BankDetector.detect
    rw [show BankDetector.detect_format "statement.xls" = .ok .Excel from rfl]
    have hcontent : BankDetector.detect_from_content idfcShapedRegistry.banks
        "ICICI Bank" "statement.xls" .Excel = some iciciShapedDetection := by
      have hreason : BankDetector.detectionReason (3/5) =
          "Moderate match from filename or content" := by
        unfold BankDetector.detectionReason
        rw [if_neg (by norm_num : ¬ (4:ℚ)/5 < 3/5),
          if_pos (by norm_num : (1:ℚ)/2 < 3/5)]
      unfold BankDetector.detect_from_content
      simp only [ParserRegistry.new, idfcShapedRegistry, BankDetector.detectLoop,
        hic, hid, hreason,
        show (ICICIBank idfcShapedDecode).getParser .Excel =
          some (iciciExcelFormatParser idfcShapedDecode) from rfl]
      rw [if_pos (show (0:ℚ) < 3/5 by norm_num)]
      rw [if_neg (show ¬ (3:ℚ)/5 < 0 by norm_num)]
      rw [if_pos (show (3:ℚ)/10 ≤ 3/5 by norm_num)]
      rfl
    simp only [hcontent]
  refine ⟨hdet, ?_, ?_⟩
  · unfold ParserRegistry.auto_parse
    rw [hdet]
    rfl
  · rfl

/-- Witness for C1's clause (a): on undetectable content `auto_parse`
returns exactly the extension-fallback's result. -/
theorem claim_C1_witness :
    ParserRegistry.auto_parse failingRegistry "unknown.xls" "no bank markers"
      ParserOptions.default =
    ParserRegistry.parse_by_extension failingRegistry "unknown.xls"
      "no bank markers" ParserOptions.default := by
  refine (claim_C1 failingRegistry "unknown.xls" "no bank markers"
    ParserOptions.default).1
    (.ParseError ("Could not detect bank from file: " ++ "unknown.xls")) ?_
  have hic : (ICICIBank failingDecode).detect_confidence "unknown.xls"
      "no bank markers" = 0 := by
    rw [detect_confidence_cases]
    rw [show (ICICIBank failingDecode).info.matches_filename "unknown.xls" =
        false from by decide,
      show (ICICIBank failingDecode).info.matches_content "no bank markers" =
        false from by decide]
    simp
  have hid : (IDFCFirstBank failingDecode).detect_confidence "unknown.xls"
      "no bank markers" = 0 := by
    rw [detect_confidence_cases]
    rw [show (IDFCFirstBank failingDecode).info.matches_filename "unknown.xls" =
        false from by decide,
      show (IDFCFirstBank failingDecode).info.matches_content "no bank markers" =
        false from by decide]
    simp
  unfold BankDetector.detect
  rw [show BankDetector.detect_format "unknown.xls" = .ok .Excel from rfl]
  have hcontent : BankDetector.detect_from_content failingRegistry.banks
      "no bank markers" "unknown.xls" .Excel = none := by
    unfold BankDetector.detect_from_content
    simp only [failingRegistry, ParserRegistry.new, BankDetector.detectLoop,
      hic, hid]
    rw [if_neg (lt_irrefl (0:ℚ))]
    rw [if_neg (lt_irrefl (0:ℚ))]
    rw [if_neg (show ¬ (3:ℚ)/10 ≤ 0 by norm_num)]
  simp only [hcontent]

/-- Any amount the debit/credit selection emits is an absolute value,
hence non-negative. -/
theorem debitCreditChoice_nonneg (w c : Option Decimal) (a : Decimal)
    (ty : TransactionType) (h : debitCreditChoice w c = some (a, ty)) :
    0 ≤ a.num := by
  unfold debitCreditChoice at h
  repeat' split at h
  all_goals simp_all [Decimal.abs]
  all_goals (obtain ⟨h1, h2⟩ := h; rw [← h1]; exact abs_nonneg _)

/-- A parsed non-zero debit always wins as a Debit of its absolute
value. -/
theorem debitCreditChoice_debit (w c : Option Decimal) (a : Decimal)
    (hw : w = some a) (hz : a.is_zero = false) :
    debitCreditChoice w c = some (a.abs, .Debit) := by
  subst hw
  unfold debitCreditChoice
  simp [hz]

/-- With no non-zero debit, a parsed non-zero credit wins as a Credit
of its absolute value. -/
theorem debitCreditChoice_credit (w c : Option Decimal) (b : Decimal)
    (hw : w = none ∨ ∃ a, w = some a ∧ a.is_zero = true)
    (hc : c = some b) (hz : b.is_zero = false) :
    debitCreditChoice w c = some (b.abs, .Credit) := by
  subst hc
  rcases hw with rfl | ⟨a, rfl, haz⟩ <;> unfold debitCreditChoice <;> simp [hz]
  simp [haz, hz]

/-- With neither a non-zero debit nor a non-zero credit there is no
amount. -/
theorem debitCreditChoice_none (w c : Option Decimal)
    (hw : w = none ∨ ∃ a, w = some a ∧ a.is_zero = true)
    (hc : c = none ∨ ∃ b, c = some b ∧ b.is_zero = true) :
    debitCreditChoice w c = none := by
  rcases hw with rfl | ⟨a, rfl, haz⟩ <;> rcases hc with rfl | ⟨b, rfl, hbz⟩ <;>
    unfold debitCreditChoice <;> simp [*]

/-- Every transaction the ICICI row step emits has a non-negative
amount. -/
theorem icici_row_step_emit_nonneg (row : List Data) (t : ParsedTransaction)
    (h : IciciExcelParser.row_step row = .emit t) : 0 ≤ t.amount.num := by
  simp only [IciciExcelParser.row_step] at h
  repeat' split at h
  all_goals try (exact RowStep.noConfusion h)
  all_goals injection h with h
  all_goals subst h
  all_goals exact debitCreditChoice_nonneg _ _ _ _ (by assumption)

/-- Every transaction the IDFC First row step emits has a non-negative
amount. -/
theorem idfc_row_step_emit_nonneg (row : List Data) (t : ParsedTransaction)
    (h : IdfcFirstExcelParser.row_step row = .emit t) : 0 ≤ t.amount.num := by
  simp only [IdfcFirstExcelParser.row_step] at h
  repeat' split at h
  all_goals try (exact RowStep.noConfusion h)
  all_goals injection h with h
  all_goals subst h
  all_goals exact debitCreditChoice_nonneg _ _ _ _ (by assumption)

/-- Non-negativity over the whole ICICI row loop. -/
theorem icici_collect_nonneg (rows : List (List Data)) :
    ∀ t ∈ IciciExcelParser.collectRows rows, 0 ≤ t.amount.num := by
  induction rows with
  | nil => intro t ht; cases ht
  | cons r rest ih =>
    intro t ht
    unfold IciciExcelParser.collectRows at ht
    cases hs : IciciExcelParser.row_step r with
    | stop => rw [hs] at ht; cases ht
    | skip => rw [hs] at ht; exact ih t ht
    | emit t' =>
      rw [hs] at ht
      rcases List.mem_cons.mp ht with rfl | hmem
      · exact icici_row_step_emit_nonneg r t hs
      · exact ih t hmem

/-- Non-negativity over the whole IDFC First row loop. -/
theorem idfc_collect_nonneg (rows : List (List Data)) :
    ∀ n, ∀ t ∈ IdfcFirstExcelParser.collectRows rows n, 0 ≤ t.amount.num := by
  induction rows with
  | nil => intro n t ht; cases ht
  | cons r rest ih =>
    intro n t ht
    unfold IdfcFirstExcelParser.collectRows at ht
    by_cases he : ExcelReader.is_row_empty r = true
    · rw [if_pos he] at ht
      by_cases h3 : n + 1 ≥ 3
      · rw [if_pos h3] at ht; cases ht
      · rw [if_neg h3] at ht; exact ih (n + 1) t ht
    · rw [if_neg he] at ht
      cases hs : IdfcFirstExcelParser.row_step r with
      | stop => rw [hs] at ht; cases ht
      | skip => rw [hs] at ht; exact ih 0 t ht
      | emit t' =>
        rw [hs] at ht
        rcases List.mem_cons.mp ht with rfl | hmem
        · exact idfc_row_step_emit_nonneg r t hs
        · exact ih 0 t hmem

/-- **C5** — in both the ICICI and IDFC First extractors, a data row's
direction and magnitude come from the debit and credit cells: a
non-zero parsed debit yields a Debit of its absolute value; otherwise
a non-zero parsed credit yields a Credit of its absolute value;
otherwise the row is skipped — and consequently every transaction
either extractor ever produces has a non-negative amount. -/
theorem claim_C5 :
    (∀ rows start_row res,
      IciciExcelParser.parse_rows rows start_row = .ok res →
      ∀ t ∈ res.transactions, 0 ≤ t.amount.num) ∧
    (∀ rows start_row res,
      IdfcFirstExcelParser.parse_rows rows start_row = .ok res →
      ∀ t ∈ res.transactions, 0 ≤ t.amount.num) ∧
    (∀ row date,
      ExcelReader.is_row_empty row = false →
      IciciExcelParser.is_stop_row row = false →
      (row[IciciExcelParser.value_date_col]?).bind
        ExcelDateParser.parse_cell = some date →
      (((row[IciciExcelParser.remarks_col]?).map
        (fun c => strTrim (ExcelReader.cell_to_string c))).getD "").isEmpty =
          false →
      (∀ a, (row[IciciExcelParser.withdrawal_col]?).bind
          ExcelAmountParser.parse_cell = some a → a.is_zero = false →
        (∃ t, IciciExcelParser.row_step row = .emit t) ∧
        ∀ t, IciciExcelParser.row_step row = .emit t →
          t.amount = a.abs ∧ t.transaction_type = .Debit) ∧
      (∀ b, ((row[IciciExcelParser.withdrawal_col]?).bind
            ExcelAmountParser.parse_cell = none ∨
          ∃ a, (row[IciciExcelParser.withdrawal_col]?).bind
            ExcelAmountParser.parse_cell = some a ∧ a.is_zero = true) →
        (row[IciciExcelParser.deposit_col]?).bind
          ExcelAmountParser.parse_cell = some b → b.is_zero = false →
        (∃ t, IciciExcelParser.row_step row = .emit t) ∧
        ∀ t, IciciExcelParser.row_step row = .emit t →
          t.amount = b.abs ∧ t.transaction_type = .Credit) ∧
      (((row[IciciExcelParser.withdrawal_col]?).bind
            ExcelAmountParser.parse_cell = none ∨
          ∃ a, (row[IciciExcelParser.withdrawal_col]?).bind
            ExcelAmountParser.parse_cell = some a ∧ a.is_zero = true) →
        ((row[IciciExcelParser.deposit_col]?).bind
            ExcelAmountParser.parse_cell = none ∨
          ∃ b, (row[IciciExcelParser.deposit_col]?).bind
            ExcelAmountParser.parse_cell = some b ∧ b.is_zero = true) →
        IciciExcelParser.row_step row = .skip)) ∧
    (∀ row date,
      IdfcFirstExcelParser.is_stop_row row = false →
      (row[IdfcFirstExcelParser.transaction_date_col]?).bind
        ExcelDateParser.parse_cell = some date →
      (((row[IdfcFirstExcelParser.particulars_col]?).map
        (fun c => strTrim (ExcelReader.cell_to_string c))).getD "").isEmpty =
          false →
      (∀ a, (row[IdfcFirstExcelParser.debit_col]?).bind
          ExcelAmountParser.parse_cell = some a → a.is_zero = false →
        (∃ t, IdfcFirstExcelParser.row_step row = .emit t) ∧
        ∀ t, IdfcFirstExcelParser.row_step row = .emit t →
          t.amount = a.abs ∧ t.transaction_type = .Debit) ∧
      (∀ b, ((row[IdfcFirstExcelParser.debit_col]?).bind
            ExcelAmountParser.parse_cell = none ∨
          ∃ a, (row[IdfcFirstExcelParser.debit_col]?).bind
            ExcelAmountParser.parse_cell = some a ∧ a.is_zero = true) →
        (row[IdfcFirstExcelParser.credit_col]?).bind
          ExcelAmountParser.parse_cell = some b → b.is_zero = false →
        (∃ t, IdfcFirstExcelParser.row_step row = .emit t) ∧
        ∀ t, IdfcFirstExcelParser.row_step row = .emit t →
          t.amount = b.abs ∧ t.transaction_type = .Credit) ∧
      (((row[IdfcFirstExcelParser.debit_col]?).bind
            ExcelAmountParser.parse_cell = none ∨
          ∃ a, (row[IdfcFirstExcelParser.debit_col]?).bind
            ExcelAmountParser.parse_cell = some a ∧ a.is_zero = true) →
        ((row[IdfcFirstExcelParser.credit_col]?).bind
            ExcelAmountParser.parse_cell = none ∨
          ∃ b, (row[IdfcFirstExcelParser.credit_col]?).bind
            ExcelAmountParser.parse_cell = some b ∧ b.is_zero = true) →
        IdfcFirstExcelParser.row_step row = .skip)) := by
  refine ⟨?_, ?_, ?_, ?_⟩
  · intro rows start_row res h
    injection h with h
    subst h
    intro t ht
    exact icici_collect_nonneg _ t ht
  · intro rows start_row res h
    injection h with h
    subst h
    intro t ht
    exact idfc_collect_nonneg _ 0 t ht
  · intro row date hempty hstop hdate hdesc
    refine ⟨?_, ?_, ?_⟩
    · intro a ha hz
      have hch := debitCreditChoice_debit _
        ((row[IciciExcelParser.deposit_col]?).bind ExcelAmountParser.parse_cell)
        a ha hz
      constructor
      · exact ⟨_, by
          simp only [IciciExcelParser.row_step, hempty, hstop, hdate, hdesc, hch,
            Bool.false_eq_true, if_false]
          rfl⟩
      · intro t ht
        simp only [IciciExcelParser.row_step, hempty, hstop, hdate, hdesc, hch,
          Bool.false_eq_true, if_false] at ht
        injection ht with ht
        subst ht
        exact ⟨rfl, rfl⟩
    · intro b hw hc hz
      have hch := debitCreditChoice_credit _ _ b hw hc hz
      constructor
      · exact ⟨_, by
          simp only [IciciExcelParser.row_step, hempty, hstop, hdate, hdesc, hch,
            Bool.false_eq_true, if_false]
          rfl⟩
      · intro t ht
        simp only [IciciExcelParser.row_step, hempty, hstop, hdate, hdesc, hch,
          Bool.false_eq_true, if_false] at ht
        injection ht with ht
        subst ht
        exact ⟨rfl, rfl⟩
    · intro hw hc
      have hch := debitCreditChoice_none _ _ hw hc
      simp only [IciciExcelParser.row_step, hempty, hstop, hdate, hdesc, hch,
        Bool.false_eq_true, if_false]
  · intro row date hstop hdate hdesc
    refine ⟨?_, ?_, ?_⟩
    · intro a ha hz
      have hch := debitCreditChoice_debit _
        ((row[IdfcFirstExcelParser.credit_col]?).bind ExcelAmountParser.parse_cell)
        a ha hz
      constructor
      · exact ⟨_, by
          simp only [IdfcFirstExcelParser.row_step, hstop, hdate, hdesc, hch,
            Bool.false_eq_true, if_false]
          rfl⟩
      · intro t ht
        simp only [IdfcFirstExcelParser.row_step, hstop, hdate, hdesc, hch,
          Bool.false_eq_true, if_false] at ht
        injection ht with ht
        subst ht
        exact ⟨rfl, rfl⟩
    · intro b hw hc hz
      have hch := debitCreditChoice_credit _ _ b hw hc hz
      constructor
      · exact ⟨_, by
          simp only [IdfcFirstExcelParser.row_step, hstop, hdate, hdesc, hch,
            Bool.false_eq_true, if_false]
          rfl⟩
      · intro t ht
        simp only [IdfcFirstExcelParser.row_step, hstop, hdate, hdesc, hch,
          Bool.false_eq_true, if_false] at ht
        injection ht with ht
        subst ht
        exact ⟨rfl, rfl⟩
    · intro hw hc
      have hch := debitCreditChoice_none _ _ hw hc
      simp only [IdfcFirstExcelParser.row_step, hstop, hdate, hdesc, hch,
        Bool.false_eq_true, if_false]

/-- Witness for C5's ICICI debit rule on a concrete row. -/
theorem claim_C5_witness :
    (∃ t, IciciExcelParser.row_step iciciWitnessRow = .emit t) ∧
    (∀ t, IciciExcelParser.row_step iciciWitnessRow = .emit t →
      t.amount = (Decimal.mk 100 0).abs ∧ t.transaction_type = .Debit) :=
  (claim_C5.2.2.1 iciciWitnessRow 20088 (by decide) (by decide) (by decide)
    (by decide)).1 ⟨100, 0⟩ (by decide) (by decide)

/-- **C4** — deduplicated commit is idempotent: with no pre-existing
duplicates of the candidate, bulk-committing the singleton once yields
(created 1, skipped 0) and appends exactly one row; bulk-committing
the identical candidate again yields (created 0, skipped 1), leaves
the ledger unchanged and does not abort the batch. -/
theorem claim_C4 (db : Ledger) (user_id : Int) (params : CreateTransactionParams)
    (hfresh : Model.freshFor db user_id params) :
    ∃ t : StoredTransaction,
      Model.bulk_import_with_deduplication db user_id [params] =
        .ok (1, 0, db ++ [t]) ∧
      Model.bulk_import_with_deduplication (db ++ [t]) user_id [params] =
        .ok (0, 1, db ++ [t]) := by
  obtain ⟨hhash, href⟩ := hfresh
  set hsh := Model.generate_hash user_id params.account_id params.transaction_date
    params.amount params.description params.transaction_type
    params.reference_number with hhsh
  set tx : StoredTransaction :=
    { user_id := user_id
      account_id := params.account_id
      category_id := params.category_id
      statement_id := params.statement_id
      transaction_date := params.transaction_date
      posted_date := params.posted_date
      description := params.description
      original_description := params.original_description
      amount := params.amount
      transaction_type := params.transaction_type
      status := "posted"
      merchant_name := params.merchant_name
      reference_number := params.reference_number
      notes := params.notes
      is_recurring := false
      is_excluded := false
      transaction_hash := some hsh } with htx
  have hrefdup1 :
      (match params.reference_number with
       | some ref_no =>
         if !(strTrim ref_no).isEmpty then
           (Model.find_duplicate_by_reference db ref_no).isSome
         else false
       | none => false) = false := by
    cases hr : params.reference_number with
    | none => rfl
    | some r =>
      by_cases hre : (strTrim r).isEmpty
      · simp [hre]
      · simp only [hre, Bool.not_false, if_true]
        unfold Model.find_duplicate_by_reference
        rw [if_neg hre]
        rw [List.find?_eq_none.mpr ?_]
        · rfl
        · intro t ht
          have h2 := (href r hr t ht).2
          simp [h2]
  have hfind1 : db.find? (fun t => t.user_id == user_id &&
      t.transaction_hash == some hsh) = none := by
    apply List.find?_eq_none.mpr
    intro t ht
    have h2 := hhash t ht
    simp [h2]
  have hins1 : Model.insert db tx = .ok (db ++ [tx]) := by
    have hinsh : (match tx.transaction_hash with
        | some h => db.any (fun u => u.transaction_hash == some h)
        | none => false) = false := by
      show db.any (fun u => u.transaction_hash == some hsh) = false
      apply List.any_eq_false.mpr
      intro t ht
      have h2 := hhash t ht
      simp [h2]
    have hinsr : (match tx.reference_number with
        | some r => db.any (fun u => u.reference_number == some r)
        | none => false) = false := by
      show (match params.reference_number with
        | some r => db.any (fun u => u.reference_number == some r)
        | none => false) = false
      cases hr : params.reference_number with
      | none => rfl
      | some r =>
        apply List.any_eq_false.mpr
        intro t ht
        have h2 := (href r hr t ht).1
        simp [h2]
    unfold Model.insert
    rw [hinsh]
    simp only [Bool.false_eq_true, if_false]
    rw [hinsr]
    simp only [Bool.false_eq_true, if_false]
  have hc1 : Model.create_with_deduplication db user_id params =
      .ok (some tx, db ++ [tx]) := by
    simp only [Model.create_with_deduplication]
    rw [hrefdup1]
    simp only [Bool.false_eq_true, if_false]
    rw [← hhsh, hfind1, ← htx, hins1]
  have hfind2 : (db ++ [tx]).find? (fun t => t.user_id == user_id &&
      t.transaction_hash == some hsh) = some tx := by
    rw [List.find?_append, hfind1]
    simp [htx, List.find?]
  have hc2 : Model.create_with_deduplication (db ++ [tx]) user_id params =
      .ok (none, db ++ [tx]) := by
    simp only [Model.create_with_deduplication]
    by_cases hcase : (match params.reference_number with
       | some ref_no =>
         if !(strTrim ref_no).isEmpty then
           (Model.find_duplicate_by_reference (db ++ [tx]) ref_no).isSome
         else false
       | none => false) = true
    · rw [if_pos hcase]
    · rw [if_neg hcase]
      rw [← hhsh, hfind2]
  refine ⟨tx, ?_, ?_⟩
  · simp only [Model.bulk_import_with_deduplication,
      Model.bulk_import_with_deduplication.go, hc1]
  · simp only [Model.bulk_import_with_deduplication,
      Model.bulk_import_with_deduplication.go, hc2]

/-- Witness for C4 on the empty ledger. -/
theorem claim_C4_witness :
    ∃ t : StoredTransaction,
      Model.bulk_import_with_deduplication [] 1 [idempotenceCandidate] =
        .ok (1, 0, [] ++ [t]) ∧
      Model.bulk_import_with_deduplication ([] ++ [t]) 1 [idempotenceCandidate] =
        .ok (0, 1, [] ++ [t]) :=
  claim_C4 [] 1 idempotenceCandidate (by constructor <;> simp)

set_option maxRecDepth 100000 in
/-- **C3 (code behaviour at the failing input)** — reference-number
deduplication does not fire for the claim's scenario: the probe is
normalized (trim, lowercase) but compared against the raw stored
column.  Committing two transactions that share the raw reference
`"UPI123"` but differ in description/amount aborts the batch with a
uniqueness-constraint error instead of skipping the second; with
references `"UPI123"` and `"upi123"` (equal after normalization) both
rows are created.  The claim — and §4.6 of the spec — require
(created 1, skipped 1) in both scenarios. -/
theorem claim_C3_code_evaluation :
    Model.bulk_import_with_deduplication [] 1
      [refScenarioFirst, refScenarioSameRef] =
      .error
        "duplicate key value violates unique constraint idx_transactions_reference_unique" ∧
    (Model.bulk_import_with_deduplication [] 1
      [refScenarioFirst, refScenarioLowerRef]).map
      (fun x => (x.1, x.2.1)) = .ok (2, 0) := by
  exact ⟨rfl, rfl⟩
